import Mathlib

/-!
Verification of the generative-UI agent core (language detection, response
templates, capability handlers, handler registry, tool dispatch) against its
natural-language specification.  The Python sources are embedded shallowly:
pure string/JSON manipulation becomes Lean functions on `List Char` / an
inductive `Json` value; the external LLM and HTTP calls are modelled as
explicit outcome parameters (`Option`/`Except`), since the code treats them as
black boxes that either return a payload or raise.
-/

namespace Agent

/-! ## Python string primitives

Helpers modelling the exact Python `str` operations the agent uses.  They all
work on `String.data` so that proofs can proceed by list induction and
concrete cases evaluate by `decide`/`rfl`. -/

/-- Characters accepted by Python's `str.isspace()` / regex `\s` (the set is
the same for both): ASCII whitespace, the C0 separators, and the Unicode
space characters. -/
def pyIsSpace (c : Char) : Bool :=
  decide (c.toNat = 9 ∨ c.toNat = 10 ∨ c.toNat = 11 ∨ c.toNat = 12 ∨
    c.toNat = 13 ∨ (0x1c ≤ c.toNat ∧ c.toNat ≤ 0x1f) ∨ c.toNat = 32 ∨
    c.toNat = 0x85 ∨ c.toNat = 0xa0 ∨ c.toNat = 0x1680 ∨
    (0x2000 ≤ c.toNat ∧ c.toNat ≤ 0x200a) ∨
    c.toNat = 0x2028 ∨ c.toNat = 0x2029 ∨ c.toNat = 0x202f ∨
    c.toNat = 0x205f ∨ c.toNat = 0x3000)

/-- Python `str.strip()` with no argument: remove whitespace from both ends. -/
def pyStrip (s : String) : String :=
  ⟨((s.data.dropWhile pyIsSpace).reverse.dropWhile pyIsSpace).reverse⟩

/-- Python `str.lstrip(chars)`: remove any leading characters in `set`. -/
def pyLStripChars (set : List Char) (s : String) : String :=
  ⟨s.data.dropWhile (fun c => set.contains c)⟩

/-- Python `str.rstrip(chars)`: remove any trailing characters in `set`. -/
def pyRStripChars (set : List Char) (s : String) : String :=
  ⟨(s.data.reverse.dropWhile (fun c => set.contains c)).reverse⟩

/-- Python `str.strip(chars)`: remove characters in `set` from both ends. -/
def pyStripChars (set : List Char) (s : String) : String :=
  pyRStripChars set (pyLStripChars set s)

/-- Python `str.lower()`.  `Char.toLower` lowers the ASCII range, which covers
every keyword the agent matches against (`rain`, `cloud`, `sun`, ...). -/
def pyLower (s : String) : String :=
  ⟨s.data.map Char.toLower⟩

/-- Contiguous-occurrence test for lists: `pat` occurs inside `l`. -/
def containsSeq (pat : List Char) : List Char → Bool
  | [] => pat.isEmpty
  | c :: rest => pat.isPrefixOf (c :: rest) || containsSeq pat rest

/-- Python substring test `pat in s`. -/
def pyContains (s pat : String) : Bool :=
  containsSeq pat.data s.data

/-- Python `s.startswith(pat)`. -/
def pyStartsWith (s pat : String) : Bool :=
  pat.data.isPrefixOf s.data

/-- Python `s.endswith(pat)`. -/
def pyEndsWith (s pat : String) : Bool :=
  pat.data.isSuffixOf s.data

/-- Python slicing `s[n:]` (character based). -/
def pyDrop (s : String) (n : Nat) : String :=
  ⟨s.data.drop n⟩

/-- Python slicing `s[:-n]` (character based). -/
def pyDropRight (s : String) (n : Nat) : String :=
  ⟨s.data.take (s.data.length - n)⟩

/-- Accumulator for Python `str.split("\n")`. -/
def splitLinesAux (acc : List Char) : List Char → List (List Char)
  | [] => [acc.reverse]
  | c :: rest =>
    if c = '\n' then acc.reverse :: splitLinesAux [] rest
    else splitLinesAux (c :: acc) rest

/-- Python `s.split("\n")`. -/
def pySplitLines (s : String) : List String :=
  (splitLinesAux [] s.data).map String.mk

/-- Python `s.split(":", 1)[1]`: everything after the first colon.  Callers
guard on `":" in s`, so the colon exists. -/
def pyAfterFirstColon (s : String) : String :=
  ⟨(s.data.dropWhile (fun c => c != ':')).drop 1⟩

/-- Decimal digit characters, as Python renders them. -/
def pyDigitChar (d : Nat) : Char :=
  if d = 0 then '0' else if d = 1 then '1' else if d = 2 then '2'
  else if d = 3 then '3' else if d = 4 then '4' else if d = 5 then '5'
  else if d = 6 then '6' else if d = 7 then '7' else if d = 8 then '8'
  else '9'

/-- Little-endian decimal digits of `n`, with enough fuel to terminate
(structural recursion on the fuel keeps the definition kernel-reducible). -/
def decDigitsF : Nat → Nat → List Nat
  | 0, _ => []
  | fuel + 1, n => if n < 10 then [n] else n % 10 :: decDigitsF fuel (n / 10)

/-- Decimal rendering of a natural number, modelling Python's `str()` of the
non-negative ints the agent formats (task counts and task indices). -/
def decRepr (n : Nat) : String :=
  ⟨((decDigitsF (n + 1) n).map pyDigitChar).reverse⟩

/-! ## JSON values

Result values of Python's `json.loads`.  A number carries the string Python's
`str()` would print for the parsed numeric value (e.g. `"97.2"`, `"45"`);
the agent only ever formats numbers into strings or tests their truthiness,
so that rendering is all the embedding needs of them. -/

inductive Json where
  | null : Json
  | bool (b : Bool) : Json
  | num (str : String) : Json
  | str (s : String) : Json
  | arr (items : List Json) : Json
  | obj (fields : List (String × Json)) : Json

/-- Lookup in a parsed JSON object.  `json.loads` keeps the last value for a
duplicated key, hence the reversed search. -/
def jLookup (kvs : List (String × Json)) (k : String) : Option Json :=
  (kvs.reverse.find? (fun kv => kv.1 == k)).map (·.2)

/-- Python `d.get(k, dflt)` where `d` must be a dict; on any other value the
attribute access raises (`AttributeError`), modelled as `Except.error`. -/
def dictGet (j : Json) (k : String) (dflt : Json) : Except Unit Json :=
  match j with
  | .obj kvs => .ok ((jLookup kvs k).getD dflt)
  | _ => .error ()

/-- Python truthiness of a JSON value.  A number is falsy exactly when it is
zero; with the `str()`-rendering representation the zero spellings are
`"0"`, `"0.0"` and `"-0.0"`. -/
def jsonTruthy : Json → Bool
  | .null => false
  | .bool b => b
  | .num r => decide (¬(r = "0" ∨ r = "0.0" ∨ r = "-0.0"))
  | .str s => !s.data.isEmpty
  | .arr l => !l.isEmpty
  | .obj kvs => !kvs.isEmpty

mutual

/-- Python `repr()` of a JSON value, used inside rendered containers.  String
quoting is approximated with a plain single-quote wrap; no claim inspects a
rendered container. -/
def pyRepr : Json → String
  | .null => "None"
  | .bool true => "True"
  | .bool false => "False"
  | .num r => r
  | .str s => "\x27" ++ s ++ "\x27"
  | .arr l => "[" ++ pyReprList l ++ "]"
  | .obj kvs => "\x7b" ++ pyReprObj kvs ++ "\x7d"

/-- Comma-joined `repr`s of list elements. -/
def pyReprList : List Json → String
  | [] => ""
  | [j] => pyRepr j
  | j :: rest => pyRepr j ++ ", " ++ pyReprList rest

/-- Comma-joined `repr`s of object entries. -/
def pyReprObj : List (String × Json) → String
  | [] => ""
  | [(k, j)] => "\x27" ++ k ++ "\x27: " ++ pyRepr j
  | (k, j) :: rest => "\x27" ++ k ++ "\x27: " ++ pyRepr j ++ ", " ++ pyReprObj rest

end

/-- Python `str()` of a JSON value, as used by f-strings and `format`. -/
def pyStr : Json → String
  | .null => "None"
  | .bool true => "True"
  | .bool false => "False"
  | .num r => r
  | .str s => s
  | .arr l => "[" ++ pyReprList l ++ "]"
  | .obj kvs => "\x7b" ++ pyReprObj kvs ++ "\x7d"

/-! ## Language detection (`src/agent/utils/language.py`, `detect_language`)

Same function is duplicated verbatim in `graph.py`. -/

/-- Condition of the first regex: any Hiragana (U+3040-U+309F) or Katakana
(U+30A0-U+30FF) character. -/
def isKanaChar (c : Char) : Bool :=
  decide ((0x3040 ≤ c.toNat ∧ c.toNat ≤ 0x309f) ∨
    (0x30a0 ≤ c.toNat ∧ c.toNat ≤ 0x30ff))

/-- Condition of the second regex: any CJK Unified Ideograph
(U+4E00-U+9FFF). -/
def isCJKChar (c : Char) : Bool :=
  decide (0x4e00 ≤ c.toNat ∧ c.toNat ≤ 0x9fff)

/-- Language detection: Japanese kana first, then Chinese ideographs, else
English. -/
def detect_language (text : String) : String :=
  if text.data.any isKanaChar then "ja"
  else if text.data.any isCJKChar then "zh"
  else "en"

/-! ## Response templates (`src/agent/utils/language.py`)

`format_response(key, language, **kwargs)` looks up
`RESPONSE_TEMPLATES[key][language]`, defaulting to the `'en'` variant for any
other language, then substitutes the named parameters.  The template-key set
is closed, so each key becomes one Lean function whose concatenation lays out
the template's literal text around the parameters. -/

/-- Template `weather`. -/
def format_response_weather (language city temperature condition description : String) :
    String :=
  if language = "zh" then
    "这是" ++ city ++ "的当前天气：" ++ temperature ++ "，" ++ condition ++ "。" ++ description
  else if language = "ja" then
    city ++ "の現在の天気：" ++ temperature ++ "、" ++ condition ++ "。" ++ description
  else
    "Here\x27s the current weather for " ++ city ++ ": " ++ temperature ++ ", " ++
      condition ++ ". " ++ description

/-- Template `weather_fallback`. -/
def format_response_weather_fallback
    (language city temperature condition description : String) : String :=
  if language = "zh" then
    "这是" ++ city ++ "的天气信息：" ++ temperature ++ "，" ++ condition ++ "。" ++ description
  else if language = "ja" then
    city ++ "の天気情報：" ++ temperature ++ "、" ++ condition ++ "。" ++ description
  else
    "Here\x27s the weather information for " ++ city ++ ": " ++ temperature ++ ", " ++
      condition ++ ". " ++ description

/-- Template `todo_success` (`count` is an int in the source; it is rendered
in decimal by `str.format`). -/
def format_response_todo_success (language title : String) (count : Nat) : String :=
  if language = "zh" then
    "我已经创建了一个名为\x27" ++ title ++ "\x27的任务计划，包含" ++ decRepr count ++
      "个可执行步骤来帮助您实现目标。"
  else if language = "ja" then
    "\x27" ++ title ++ "\x27というタスクプランを作成しました。目標達成のために" ++ decRepr count ++
      "个の実行可能なステップが含まれています。"
  else
    "I\x27ve created a task plan titled \x27" ++ title ++ "\x27 with " ++ decRepr count ++
      " actionable steps to help you achieve your goal."

/-- Template `video_editing_success`. -/
def format_response_video_editing_success (language title : String)
    (removal_count addition_count total_count : Nat) : String :=
  if language = "zh" then
    "我已经创建了一个名为\x27" ++ title ++ "\x27的视频编辑计划，包含" ++ decRepr removal_count ++
      "个移除任务和" ++ decRepr addition_count ++ "个添加任务（共" ++ decRepr total_count ++
      "个任务）来帮助您完成视频编辑项目。"
  else if language = "ja" then
    "\x27" ++ title ++ "\x27というビデオ編集プランを作成しました。" ++ decRepr removal_count ++
      "個の削除タスクと" ++ decRepr addition_count ++ "個の追加タスク（合計" ++
      decRepr total_count ++ "個のタスク）でビデオ編集プロジェクトの完成をサポートします。"
  else
    "I\x27ve created a video editing plan titled \x27" ++ title ++ "\x27 with " ++
      decRepr removal_count ++ " removal tasks and " ++ decRepr addition_count ++
      " addition tasks (" ++ decRepr total_count ++
      " total tasks) to help you complete your video editing project."

/-- Template `video_editing_fallback` (no parameters). -/
def format_response_video_editing_fallback (language : String) : String :=
  if language = "zh" then
    "我已经创建了一个通用的视频编辑计划，包含移除和添加任务来帮助您的视频编辑项目。"
  else if language = "ja" then
    "ビデオ編集プロジェクトをサポートするために、削除と追加のタスクを含む一般的なビデオ編集プランを作成しました。"
  else
    "I\x27ve created a general video editing plan with removal and addition tasks to help you with your video editing project."

/-! ## Output schemas and response envelope (`src/agent/utils/response.py`
and the `TypedDict`s of the handler modules) -/

/-- WeatherOutput of `weather.py` / `graph.py`: all fields strings. -/
structure WeatherOutput where
  city : String
  temperature : String
  condition : String
  humidity : String
  windSpeed : String
  icon : String
  gradient : String
  description : String

/-- TodoOutput of `todo.py`. -/
structure TodoOutput where
  title : String
  tasks : List String

/-- VideoEditingTask of `video_editing.py`.  The handler stores the parsed
JSON values for `title`/`description` without coercing them to `str`, so
those fields are `Json`; `tags` is `none` when the optional key was never
attached. -/
structure VideoEditingTask where
  id : String
  title : Json
  description : Json
  completed : Bool
  tags : Option Json

/-- VideoEditingOutput of `video_editing.py`; `title` is likewise the parsed
JSON value. -/
structure VideoEditingOutput where
  title : Json
  subtractionTasks : List VideoEditingTask
  additionTasks : List VideoEditingTask

/-- Payload of a UI component, one variant per capability. -/
inductive UIData where
  | weather (w : WeatherOutput) : UIData
  | todo (t : TodoOutput) : UIData
  | videoEditing (v : VideoEditingOutput) : UIData

/-- A UI component as built by `create_ui_component`. -/
structure UIComponent where
  type : String
  data : UIData

/-- Handler result as built by `create_component_response`: the `result` text
plus the UI component list. -/
structure CompResult where
  result : String
  ui_components : List UIComponent

/-- Mirror of `create_ui_component`. -/
def create_ui_component (component_type : String) (data : UIData) : UIComponent :=
  ⟨component_type, data⟩

/-- Mirror of `create_component_response`. -/
def create_component_response (result_text : String)
    (ui_components : List UIComponent) : CompResult :=
  ⟨result_text, ui_components⟩

/-! ## Weather formatting, `graph.py` variant (`format_weather_data`)

`weather_response` is the JSON document of the weather API.  All `.get`
accesses require a dict receiver — anything else raises (`Except.error`),
and so does calling `.lower()` on a non-string condition text. -/

/-- Condition-to-icon/gradient/description mapping block of
`format_weather_data` in `graph.py` (case-insensitive substring matching on
the lowered condition text, in the source's fixed branch order). -/
def map_weather_condition (city temperature condition_text humidity wind_speed : String) :
    WeatherOutput :=
  let condition_lower := pyLower condition_text
  if pyContains condition_lower "rain" || pyContains condition_lower "drizzle" then
    { city := city, temperature := temperature, condition := condition_text,
      humidity := humidity, windSpeed := wind_speed, icon := "🌧️",
      gradient := "linear-gradient(135deg, #636e72 0%, #2d3436 100%)",
      description := "Rainy weather today" }
  else if pyContains condition_lower "cloud" then
    { city := city, temperature := temperature, condition := condition_text,
      humidity := humidity, windSpeed := wind_speed, icon := "⛅",
      gradient := "linear-gradient(135deg, #74b9ff 0%, #0984e3 100%)",
      description := "Partly cloudy skies" }
  else if pyContains condition_lower "sun" || pyContains condition_lower "clear" then
    { city := city, temperature := temperature, condition := condition_text,
      humidity := humidity, windSpeed := wind_speed, icon := "☀️",
      gradient := "linear-gradient(135deg, #fdcb6e 0%, #e17055 100%)",
      description := "Clear and sunny" }
  else if pyContains condition_lower "snow" then
    { city := city, temperature := temperature, condition := condition_text,
      humidity := humidity, windSpeed := wind_speed, icon := "❄️",
      gradient := "linear-gradient(135deg, #ddd6fe 0%, #a78bfa 100%)",
      description := "Snowy conditions" }
  else
    { city := city, temperature := temperature, condition := condition_text,
      humidity := humidity, windSpeed := wind_speed, icon := "🌤️",
      gradient := "linear-gradient(135deg, #fd79a8 0%, #fdcb6e 100%)",
      description := "Pleasant weather" }

/-- `format_weather_data(weather_response, city)` from `graph.py` (clean
UTF-8 literals, English-only descriptions). -/
def format_weather_data (weather_response : Json) (city : String) :
    Except Unit WeatherOutput := do
  let current ← dictGet weather_response "current" (.obj [])
  let condition ← dictGet current "condition" (.obj [])
  let temp_f ← dictGet current "temp_f" (.num "70")
  let temperature := pyStr temp_f ++ "°F"
  let condition_text_val ← dictGet condition "text" (.str "Clear")
  let humidity_val ← dictGet current "humidity" (.num "50")
  let humidity := pyStr humidity_val ++ "%"
  let wind_mph ← dictGet current "wind_mph" (.num "5")
  let wind_speed := pyStr wind_mph ++ " mph"
  let condition_text ← match condition_text_val with
    | .str s => Except.ok s
    | _ => Except.error ()
  Except.ok (map_weather_condition city temperature condition_text humidity wind_speed)

/-! ## Weather handler (`src/agent/handlers/weather.py`)

The file on disk is double-UTF-8-encoded: its non-ASCII literals (degree
signs, icons, localized descriptions) are the mojibake of the intended
characters.  The embedding reproduces the literals exactly as the Python
interpreter reads them, via `\u` escapes. -/

/-- Entry `weather_descriptions['rain'].get(language, en)` of `weather.py`
(the zh/ja variants are the file's corrupted literals). -/
def weather_description_rain (language : String) : String :=
  if language = "zh" then
    "ä»Šæ—¥æœ‰é›¨"
  else if language = "ja" then
    "ä»Šæ—¥ã¯é›¨ã§ã™"
  else "Rainy weather today"

/-- Entry `weather_descriptions['cloud']` of `weather.py`. -/
def weather_description_cloud (language : String) : String :=
  if language = "zh" then
    "éƒ¨åˆ†å¤šäº‘"
  else if language = "ja" then
    "éƒ¨åˆ†çš„ã«æ›‡ã‚Š"
  else "Partly cloudy skies"

/-- Entry `weather_descriptions['clear']` of `weather.py`. -/
def weather_description_clear (language : String) : String :=
  if language = "zh" then
    "æ™´æœ—å¤©æ°”"
  else if language = "ja" then
    "æ™´ã‚Œã¦å¿«æ™´"
  else "Clear and sunny"

/-- Entry `weather_descriptions['snow']` of `weather.py`. -/
def weather_description_snow (language : String) : String :=
  if language = "zh" then
    "ä¸‹é›ªå¤©æ°”"
  else if language = "ja" then
    "é›ªã®å¤©æ°—"
  else "Snowy conditions"

/-- Entry `weather_descriptions['default']` of `weather.py`. -/
def weather_description_default (language : String) : String :=
  if language = "zh" then
    "å®œäººå¤©æ°”"
  else if language = "ja" then
    "å¿«é©ãªå¤©æ°—"
  else "Pleasant weather"

/-- Condition-mapping block of `WeatherHandler._format_weather_data` in
`weather.py`: same branch order, but language-localized descriptions and the
file's mojibake icon literals. -/
def handler_map_weather_condition
    (city temperature condition_text humidity wind_speed language : String) :
    WeatherOutput :=
  let condition_lower := pyLower condition_text
  if pyContains condition_lower "rain" || pyContains condition_lower "drizzle" then
    { city := city, temperature := temperature, condition := condition_text,
      humidity := humidity, windSpeed := wind_speed,
      icon := "ğŸŒ§ï¸",
      gradient := "linear-gradient(135deg, #636e72 0%, #2d3436 100%)",
      description := weather_description_rain language }
  else if pyContains condition_lower "cloud" then
    { city := city, temperature := temperature, condition := condition_text,
      humidity := humidity, windSpeed := wind_speed,
      icon := "â›…",
      gradient := "linear-gradient(135deg, #74b9ff 0%, #0984e3 100%)",
      description := weather_description_cloud language }
  else if pyContains condition_lower "sun" || pyContains condition_lower "clear" then
    { city := city, temperature := temperature, condition := condition_text,
      humidity := humidity, windSpeed := wind_speed,
      icon := "â˜€ï¸",
      gradient := "linear-gradient(135deg, #fdcb6e 0%, #e17055 100%)",
      description := weather_description_clear language }
  else if pyContains condition_lower "snow" then
    { city := city, temperature := temperature, condition := condition_text,
      humidity := humidity, windSpeed := wind_speed,
      icon := "â„ï¸",
      gradient := "linear-gradient(135deg, #ddd6fe 0%, #a78bfa 100%)",
      description := weather_description_snow language }
  else
    { city := city, temperature := temperature, condition := condition_text,
      humidity := humidity, windSpeed := wind_speed,
      icon := "ğŸŒ¤ï¸",
      gradient := "linear-gradient(135deg, #fd79a8 0%, #fdcb6e 100%)",
      description := weather_description_default language }

/-- `WeatherHandler._format_weather_data` of `weather.py`.  The degree-sign
suffix of the temperature f-string is the file's two-character mojibake
`"Â°"`. -/
def handler_format_weather_data (weather_response : Json) (city language : String) :
    Except Unit WeatherOutput := do
  let current ← dictGet weather_response "current" (.obj [])
  let condition ← dictGet current "condition" (.obj [])
  let temp_f ← dictGet current "temp_f" (.num "70")
  let temperature := pyStr temp_f ++ "Â°F"
  let condition_text_val ← dictGet condition "text" (.str "Clear")
  let humidity_val ← dictGet current "humidity" (.num "50")
  let humidity := pyStr humidity_val ++ "%"
  let wind_mph ← dictGet current "wind_mph" (.num "5")
  let wind_speed := pyStr wind_mph ++ " mph"
  let condition_text ← match condition_text_val with
    | .str s => Except.ok s
    | _ => Except.error ()
  Except.ok
    (handler_map_weather_condition city temperature condition_text humidity
      wind_speed language)

/-- Environment of one weather request: the outcomes of the external calls
the handler makes.  `cityLLM`/`cityLLM2` are the contents returned by the two
possible city-extraction completions (`none` models both an exception and a
non-string content, which the code folds into the same default);
`weatherApiKey` is `os.getenv("WEATHER_API_KEY")`; `fetch` is the parsed JSON
body the HTTP call would deliver for a city (the call itself may fail, which
`fetch` reports as an error). -/
structure WeatherEnv where
  cityLLM : Option String
  cityLLM2 : Option String
  weatherApiKey : Option String
  fetch : String → Except Unit Json

/-- `WeatherHandler._extract_city_with_openai`: the stripped completion
content, or the literal default on exception / non-string content. -/
def extract_city_with_openai (outcome : Option String) : String :=
  match outcome with
  | some s => pyStrip s
  | none => "San Francisco"

/-- `WeatherHandler._fetch_weather_data`: raises when the credential is
absent, otherwise returns the HTTP outcome. -/
def fetch_weather_data (env : WeatherEnv) (city : String) : Except Unit Json :=
  match env.weatherApiKey with
  | none => .error ()
  | some _ => env.fetch city

/-- `fallback_descriptions.get(language, en)` of
`WeatherHandler._create_fallback_weather_response` (zh/ja corrupted in the
file, en clean ASCII). -/
def weather_fallback_description (language : String) : String :=
  if language = "zh" then
    "å¤©æ°”æ•°æ®ä¸å¯ç”¨ï¼Œæ˜¾ç¤ºç¤ºä¾‹æ•°æ®"
  else if language = "ja" then
    "å¤©æ°—ãƒ‡ãƒ¼ã‚¿ãŒåˆ©ç”¨ã§ãã¾ã›ã‚“ã€ã‚µãƒ³ãƒ—ãƒ«ãƒ‡ãƒ¼ã‚¿ã‚’è¡¨ç¤º"
  else "Weather data unavailable, showing sample data"

/-- `WeatherHandler._create_fallback_weather_response`: re-extract the city
(its own failure collapses to the static default), then emit the fixed
fallback payload.  The temperature and icon literals are the file's
mojibake. -/
def create_fallback_weather_response (request language : String) (env : WeatherEnv) :
    CompResult :=
  let city := extract_city_with_openai env.cityLLM2
  let fallback_weather : WeatherOutput :=
    { city := city, temperature := "72Â°F", condition := "Partly Cloudy",
      humidity := "65%", windSpeed := "8 mph", icon := "â›…",
      gradient := "linear-gradient(135deg, #74b9ff 0%, #0984e3 100%)",
      description := weather_fallback_description language }
  let ui_component := create_ui_component "weather" (.weather fallback_weather)
  create_component_response
    (format_response_weather_fallback language fallback_weather.city
      fallback_weather.temperature fallback_weather.condition
      fallback_weather.description)
    [ui_component]

/-- `WeatherHandler.process_request`: the success path formats the fetched
data; any failure in extraction/fetch/formatting falls back. -/
def weather_process_request (request language : String) (env : WeatherEnv) :
    CompResult :=
  let city := extract_city_with_openai env.cityLLM
  match (fetch_weather_data env city).bind
      (fun wr => handler_format_weather_data wr city language) with
  | .ok weather_data =>
    let ui_component := create_ui_component "weather" (.weather weather_data)
    create_component_response
      (format_response_weather language weather_data.city weather_data.temperature
        weather_data.condition weather_data.description)
      [ui_component]
  | .error _ => create_fallback_weather_response request language env

/-! ## Todo handler (`src/agent/handlers/todo.py`)

The parser is `re.search(r"Title:\s*(.+)", text)` over the whole completion
plus a per-line `re.match(r"^\s*[-*]\s+(.+)$", line)`.  Both regexes are
modelled exactly, including Python's greedy/backtracking semantics: `\s`
also matches newlines, so the title group may start on a later line than the
`Title:` occurrence, and `(.+)` never crosses a newline. -/

/-- Match of `\s*(.+)` at the given characters: greedy whitespace run, then
at least one non-newline character; on exhaustion the engine backtracks into
the whitespace run until `(.+)` can take one non-newline character.  Returns
the captured group. -/
def titleMatchAfter (cs : List Char) : Option (List Char) :=
  let w := cs.takeWhile pyIsSpace
  let rest := cs.drop w.length
  match rest with
  | _ :: _ => some (rest.takeWhile (fun c => c != '\n'))
  | [] =>
    match (List.range w.length).reverse.find? (fun i => w.getD i '\n' != '\n') with
    | some p => some ((w.drop p).takeWhile (fun c => c != '\n'))
    | none => none

/-- Full match of `Title:\s*(.+)` anchored at the start of `cs`. -/
def titleMatchAt (cs : List Char) : Option (List Char) :=
  if cs.take 6 = "Title:".data then titleMatchAfter (cs.drop 6) else none

/-- `re.search(r"Title:\s*(.+)", ·)`: the leftmost position at which the full
pattern matches, returning the captured group. -/
def titleSearch : List Char → Option (List Char)
  | [] => none
  | c :: cs =>
    match titleMatchAt (c :: cs) with
    | some g => some g
    | none => titleSearch cs

/-- `re.match(r"^\s*[-*]\s+(.+)$", line)` on one (newline-free) line:
leading whitespace, a `-`/`*` bullet, at least one whitespace character, then
the captured rest; when only whitespace follows the bullet the engine
backtracks `\s+` down to one character so the group can be whitespace. -/
def bulletMatch (line : List Char) : Option (List Char) :=
  match line.dropWhile pyIsSpace with
  | [] => none
  | b :: rest2 =>
    if b = '-' ∨ b = '*' then
      let w := rest2.takeWhile pyIsSpace
      if w.isEmpty then none
      else
        match rest2.drop w.length with
        | c :: rest3 => some (c :: rest3)
        | [] => if 2 ≤ w.length then some (rest2.drop (w.length - 1)) else none
    else none

/-- The fixed 4-item generic task list substituted when no bullet parses. -/
def generic_todo_tasks : List String :=
  ["Analyze requirements", "Create action plan", "Execute key steps", "Review progress"]

/-- `TodoHandler._generate_task_plan`, from the completion content onwards
(`none` models a non-string content, which skips parsing entirely). -/
def generate_task_plan (ai_response : Option String) : TodoOutput :=
  let parsed : String × List String :=
    match ai_response with
    | none => ("Task Plan", [])
    | some s =>
      let title :=
        match titleSearch s.data with
        | some g => pyStrip ⟨g⟩
        | none => "Task Plan"
      let tasks := (pySplitLines s).foldl
        (fun acc line =>
          match bulletMatch line.data with
          | some g => acc ++ [pyStrip ⟨g⟩]
          | none => acc) []
      (title, tasks)
  let tasks := if parsed.2.isEmpty then generic_todo_tasks else parsed.2
  { title := parsed.1, tasks := tasks }

/-- `TodoHandler._create_fallback_todo_response`: fixed data and a fixed,
non-templated English sentence (the `language` argument is unused there). -/
def create_fallback_todo_response (language : String) : CompResult :=
  let fallback_data : TodoOutput :=
    { title := "General Plan",
      tasks := ["Analyze the request", "Plan your approach", "Take action",
        "Review results"] }
  let ui_component := create_ui_component "todo" (.todo fallback_data)
  create_component_response
    ("I\x27ve created a general task plan with " ++ decRepr fallback_data.tasks.length ++
      " steps to help you get started.")
    [ui_component]

/-- `TodoHandler.process_request`; `llm` is the completion-call outcome
(`error` = the call raised, `ok none` = non-string content). -/
def todo_process_request (request language : String)
    (llm : Except Unit (Option String)) : CompResult :=
  match llm with
  | .error _ => create_fallback_todo_response language
  | .ok ai_response =>
    let todo_data := generate_task_plan ai_response
    let ui_component := create_ui_component "todo" (.todo todo_data)
    create_component_response
      (format_response_todo_success language todo_data.title todo_data.tasks.length)
      [ui_component]

/-! ## Video-editing handler (`src/agent/handlers/video_editing.py`)

The completion is expected to be a fenced JSON object; the handler strips the
fence, parses with `json.loads` (modelled as an outcome function, since the
stdlib parser is external to this core), post-processes the task arrays, runs
a line-oriented heuristic scanner when parsing raises, substitutes fixed
localized task lists for empty results, and finally assigns sequential ids. -/

/-- An intermediate task dict as built by the parsing stage:
`{'title': ..., 'details': ..., 'tags': ...}`; `tags := none` means the dict
was built without a `tags` key (heuristic path). -/
structure RawTask where
  title : Json
  details : Json
  tags : Option Json

/-- Markdown code-fence stripping applied before `json.loads`. -/
def cleanResponse (s0 : String) : String :=
  let c := pyStrip s0
  let c := if pyStartsWith c "```json" then pyDrop c 7 else c
  let c := if pyStartsWith c "```" then pyDrop c 3 else c
  let c := if pyEndsWith c "```" then pyDropRight c 3 else c
  pyStrip c

/-- Python `for task in x` iterability: lists yield their items, strings
yield their characters as 1-character strings, dicts yield their keys;
numbers, booleans and `None` raise `TypeError`. -/
def pyIter : Json → Except Unit (List Json)
  | .arr l => .ok l
  | .str s => .ok (s.data.map (fun c => Json.str ⟨[c]⟩))
  | .obj kvs => .ok (kvs.map (fun kv => Json.str kv.1))
  | _ => .error ()

/-- Item processing of the subtraction-task loop: dict entries keep
`title`/`details`/`tags` (with defaults), string entries synthesize a
details string; any other entry is skipped. -/
def mkSubtractionRawTask (task : Json) : Option RawTask :=
  match task with
  | .obj kvs => some
      { title := (jLookup kvs "title").getD (.str ""),
        details := (jLookup kvs "details").getD (.str ""),
        tags := some ((jLookup kvs "tags").getD (.arr [])) }
  | .str s => some
      { title := .str s,
        details := .str ("Remove or reduce: " ++ pyLower s),
        tags := some (.arr [.str "editing"]) }
  | _ => none

/-- Item processing of the addition-task loop. -/
def mkAdditionRawTask (task : Json) : Option RawTask :=
  match task with
  | .obj kvs => some
      { title := (jLookup kvs "title").getD (.str ""),
        details := (jLookup kvs "details").getD (.str ""),
        tags := some ((jLookup kvs "tags").getD (.arr [])) }
  | .str s => some
      { title := .str s,
        details := .str ("Add or enhance: " ++ pyLower s),
        tags := some (.arr [.str "enhancement"]) }
  | _ => none

/-- State of the line-oriented fallback scanner. -/
structure HeurState where
  title : Json
  sub : List RawTask
  add : List RawTask
  current : Option Bool

/-- One line of the fallback scanner: title line, section headers detected by
substring, then bullet/quoted lines appended to the active section. -/
def heuristicLine (st : HeurState) (rawLine : String) : HeurState :=
  let line := pyStrip rawLine
  let lower := pyLower line
  if pyContains lower "title" && pyContains line ":" then
    let title_part :=
      pyStripChars ['\x27'] (pyStripChars ['"'] (pyStrip (pyAfterFirstColon line)))
    if title_part ≠ "" then { st with title := .str title_part } else st
  else if pyContains lower "subtraction" && (pyContains lower "task" || pyContains line "[") then
    { st with current := some true }
  else if pyContains lower "addition" && (pyContains lower "task" || pyContains line "[") then
    { st with current := some false }
  else if pyStartsWith line "-" || pyStartsWith line "*" ||
      (pyStartsWith line "\"" && pyEndsWith line "\"") then
    let task_text := pyRStripChars [','] (pyStripChars ['\x27']
      (pyStripChars ['"'] (pyStrip (pyLStripChars ['-', '*'] line))))
    if task_text ≠ "" ∧ st.current = some true then
      { st with sub := st.sub ++
          [{ title := .str task_text,
             details := .str ("Remove or reduce: " ++ pyLower task_text),
             tags := none }] }
    else if task_text ≠ "" ∧ st.current = some false then
      { st with add := st.add ++
          [{ title := .str task_text,
             details := .str ("Add or enhance: " ++ pyLower task_text),
             tags := none }] }
    else st
  else st

/-- Line-oriented fallback of the `except` branch, starting from whatever
title and task lists were already populated when the exception was raised. -/
def heuristicScan (ai_response : String) (title0 : Json)
    (sub0 add0 : List RawTask) : Json × List RawTask × List RawTask :=
  let st := (pySplitLines ai_response).foldl heuristicLine
    { title := title0, sub := sub0, add := add0, current := none }
  (st.title, st.sub, st.add)

/-- JSON-extraction block of `_generate_video_editing_plan`, including the
`except (JSONDecodeError, KeyError, TypeError)` control flow: a failed
`json.loads`, or a non-iterable task collection (TypeError raised at the
`for` statement), jumps to the heuristic scanner with the state already
built; parsed non-dict documents are silently ignored. -/
def processVideoResponse (ai_response : String) (loads : Except Unit Json) :
    Json × List RawTask × List RawTask :=
  match loads with
  | .error _ => heuristicScan ai_response (.str "Video Editing Project") [] []
  | .ok parsed =>
    match parsed with
    | .obj kvs =>
      let title := (jLookup kvs "title").getD (.str "Video Editing Project")
      let subRaw := (jLookup kvs "subtractionTasks").getD (.arr [])
      let addRaw := (jLookup kvs "additionTasks").getD (.arr [])
      match pyIter subRaw with
      | .error _ => heuristicScan ai_response title [] []
      | .ok subs =>
        let subTasks := subs.filterMap mkSubtractionRawTask
        match pyIter addRaw with
        | .error _ => heuristicScan ai_response title subTasks []
        | .ok adds => (title, subTasks, adds.filterMap mkAdditionRawTask)
    | _ => (.str "Video Editing Project", [], [])

/-- Script-detection used by the empty-list fallback: any codepoint above
127 in the original request counts as Chinese. -/
def requestLooksChinese (request : String) : Bool :=
  request.data.any (fun c => decide (127 < c.toNat))

/-- Chinese 3-item substitute subtraction list. -/
def zh_subtraction_fallback : List RawTask :=
  [ { title := .str "移除不需要的片段", details := .str "剪掉不必要或质量差的镜头",
      tags := some (.arr [.str "剪辑", .str "质量"]) },
    { title := .str "删除冗余场景", details := .str "移除重复或过长的片段",
      tags := some (.arr [.str "剪辑", .str "时机"]) },
    { title := .str "清除背景噪音", details := .str "清理音频中的不需要声音",
      tags := some (.arr [.str "音频", .str "质量"]) } ]

/-- English 3-item substitute subtraction list. -/
def en_subtraction_fallback : List RawTask :=
  [ { title := .str "Remove unwanted footage",
      details := .str "Cut out unnecessary or poor quality clips",
      tags := some (.arr [.str "editing", .str "quality"]) },
    { title := .str "Cut unnecessary scenes",
      details := .str "Remove redundant or overly long segments",
      tags := some (.arr [.str "editing", .str "timing"]) },
    { title := .str "Delete background noise",
      details := .str "Clean up audio by removing unwanted sounds",
      tags := some (.arr [.str "audio", .str "quality"]) } ]

/-- Chinese 3-item substitute addition list. -/
def zh_addition_fallback : List RawTask :=
  [ { title := .str "添加转场效果", details := .str "在场景间插入平滑的转场以提升流畅度",
      tags := some (.arr [.str "特效", .str "视觉"]) },
    { title := .str "插入背景音乐", details := .str "添加合适的音乐来增强氛围",
      tags := some (.arr [.str "音频", .str "创意"]) },
    { title := .str "制作标题序列", details := .str "添加开头和结尾的标题卡片",
      tags := some (.arr [.str "视觉", .str "创意"]) } ]

/-- English 3-item substitute addition list. -/
def en_addition_fallback : List RawTask :=
  [ { title := .str "Add transitions",
      details := .str "Insert smooth transitions between scenes for better flow",
      tags := some (.arr [.str "effects", .str "visual"]) },
    { title := .str "Insert background music",
      details := .str "Add appropriate music to enhance the mood",
      tags := some (.arr [.str "audio", .str "creative"]) },
    { title := .str "Create title sequence",
      details := .str "Add opening and closing title cards",
      tags := some (.arr [.str "visual", .str "creative"]) } ]

/-- Sequential id assignment (`f"sub_{i+1}"` / `f"add_{i+1}"` over
`enumerate`) fused with the tag-attachment loop that follows it in the
source: the source first builds the id/title/description/completed objects
and then sets `tags` at the same index when present and truthy, which is the
same per-index computation. -/
def assignTaskIds (tag : String) : Nat → List RawTask → List VideoEditingTask
  | _, [] => []
  | i, t :: ts =>
    { id := tag ++ decRepr (i + 1), title := t.title, description := t.details,
      completed := false,
      tags := match t.tags with
        | some tg => if jsonTruthy tg then some tg else none
        | none => none } :: assignTaskIds tag (i + 1) ts

/-- Title and task lists as they stand after the whole parsing stage
(JSON extraction plus heuristic fallback), before the empty-list
substitution.  `content = none` models a non-string completion content, for
which parsing is skipped entirely. -/
def videoParsedStage (content : Option String) (loads : String → Except Unit Json) :
    Json × List RawTask × List RawTask :=
  match content with
  | none => (Json.str "Video Editing Project", ([] : List RawTask), ([] : List RawTask))
  | some s => processVideoResponse s (loads (cleanResponse s))

/-- `VideoEditingHandler._generate_video_editing_plan` from the completion
content onwards.  `content = none` models a non-string content (parsing is
skipped entirely); `loads` is the behaviour of `json.loads` on the cleaned
text. -/
def generate_video_editing_plan (request : String) (content : Option String)
    (loads : String → Except Unit Json) : VideoEditingOutput :=
  let parsed := videoParsedStage content loads
  let is_chinese := requestLooksChinese request
  let subtraction_tasks :=
    if parsed.2.1.isEmpty then
      (if is_chinese then zh_subtraction_fallback else en_subtraction_fallback)
    else parsed.2.1
  let addition_tasks :=
    if parsed.2.2.isEmpty then
      (if is_chinese then zh_addition_fallback else en_addition_fallback)
    else parsed.2.2
  { title := parsed.1,
    subtractionTasks := assignTaskIds "sub_" 0 subtraction_tasks,
    additionTasks := assignTaskIds "add_" 0 addition_tasks }

/-- Fixed Chinese fallback subtraction tasks of
`_create_fallback_video_editing_response`. -/
def zh_video_fallback_subtraction : List VideoEditingTask :=
  [ { id := "sub_1", title := .str "移除不需要的片段", description := .str "剪掉不必要或质量差的镜头",
      completed := false, tags := some (.arr [.str "剪辑", .str "质量"]) },
    { id := "sub_2", title := .str "清除背景噪音", description := .str "清理音频中的不需要声音",
      completed := false, tags := some (.arr [.str "音频", .str "质量"]) },
    { id := "sub_3", title := .str "删除冗余内容", description := .str "移除重复或过长的片段",
      completed := false, tags := some (.arr [.str "剪辑", .str "时机"]) } ]

/-- Fixed Chinese fallback addition tasks. -/
def zh_video_fallback_addition : List VideoEditingTask :=
  [ { id := "add_1", title := .str "添加转场效果", description := .str "在场景间插入平滑的转场以提升流畅度",
      completed := false, tags := some (.arr [.str "特效", .str "视觉"]) },
    { id := "add_2", title := .str "插入背景音乐", description := .str "添加合适的音乐来增强氛围",
      completed := false, tags := some (.arr [.str "音频", .str "创意"]) },
    { id := "add_3", title := .str "制作标题序列", description := .str "添加开头和结尾的标题卡片",
      completed := false, tags := some (.arr [.str "视觉", .str "创意"]) } ]

/-- Fixed English fallback subtraction tasks. -/
def en_video_fallback_subtraction : List VideoEditingTask :=
  [ { id := "sub_1", title := .str "Remove unwanted footage",
      description := .str "Cut out unnecessary or poor quality clips",
      completed := false, tags := some (.arr [.str "editing", .str "quality"]) },
    { id := "sub_2", title := .str "Reduce background noise",
      description := .str "Clean up audio by removing unwanted sounds",
      completed := false, tags := some (.arr [.str "audio", .str "quality"]) },
    { id := "sub_3", title := .str "Trim excess content",
      description := .str "Remove redundant or overly long segments",
      completed := false, tags := some (.arr [.str "editing", .str "timing"]) } ]

/-- Fixed English fallback addition tasks. -/
def en_video_fallback_addition : List VideoEditingTask :=
  [ { id := "add_1", title := .str "Add smooth transitions",
      description := .str "Insert transitions between scenes for better flow",
      completed := false, tags := some (.arr [.str "effects", .str "visual"]) },
    { id := "add_2", title := .str "Insert background music",
      description := .str "Add appropriate music to enhance the mood",
      completed := false, tags := some (.arr [.str "audio", .str "creative"]) },
    { id := "add_3", title := .str "Create title cards",
      description := .str "Add opening and closing title sequences",
      completed := false, tags := some (.arr [.str "visual", .str "creative"]) } ]

/-- `VideoEditingHandler._create_fallback_video_editing_response`: fixed 3+3
lists chosen by `language == 'zh'`, text from the fallback template. -/
def create_fallback_video_editing_response (language : String) : CompResult :=
  let is_chinese := language = "zh"
  let fallback_data : VideoEditingOutput :=
    { title := .str "General Video Editing",
      subtractionTasks :=
        if is_chinese then zh_video_fallback_subtraction else en_video_fallback_subtraction,
      additionTasks :=
        if is_chinese then zh_video_fallback_addition else en_video_fallback_addition }
  let ui_component := create_ui_component "videoEditingTodo" (.videoEditing fallback_data)
  create_component_response (format_response_video_editing_fallback language) [ui_component]

/-- `VideoEditingHandler.process_request`; `llm` is the completion-call
outcome. -/
def video_process_request (request language : String)
    (llm : Except Unit (Option String)) (loads : String → Except Unit Json) :
    CompResult :=
  match llm with
  | .error _ => create_fallback_video_editing_response language
  | .ok content =>
    let video_editing_data := generate_video_editing_plan request content loads
    let removal_count := video_editing_data.subtractionTasks.length
    let addition_count := video_editing_data.additionTasks.length
    let ui_component :=
      create_ui_component "videoEditingTodo" (.videoEditing video_editing_data)
    create_component_response
      (format_response_video_editing_success language (pyStr video_editing_data.title)
        removal_count addition_count (removal_count + addition_count))
      [ui_component]

/-! ## Handler registry (`src/agent/handlers/registry.py`)

`ComponentRegistry` keeps a dict of handler classes and a dict of cached
instances.  Classes are modelled by their names; a constructed instance
carries its class name and a `uid` modelling Python object identity — each
construction yields an instance distinct from every previously constructed
one, which the monotone counter `next` witnesses. -/

/-- A live handler instance. -/
structure Handler where
  cls : String
  uid : Nat
deriving DecidableEq

/-- Registry state: the two dicts and the identity counter. -/
structure Registry where
  handlers : List (String × String)
  instances : List (String × Handler)
  next : Nat

/-- Dict lookup. -/
def getA {α : Type} (k : String) (l : List (String × α)) : Option α :=
  (l.find? (fun kv => kv.1 == k)).map (·.2)

/-- Dict assignment `d[k] = v` (replaces in place, appends when absent). -/
def setA {α : Type} (k : String) (v : α) : List (String × α) → List (String × α)
  | [] => [(k, v)]
  | kv :: rest => if kv.1 = k then (k, v) :: rest else kv :: setA k v rest

/-- Dict deletion `del d[k]` (first occurrence; keys are unique in reachable
states). -/
def delA {α : Type} (k : String) : List (String × α) → List (String × α)
  | [] => []
  | kv :: rest => if kv.1 = k then rest else kv :: delA k rest

/-- `ComponentRegistry.register_handler`: store the class, drop any cached
instance for that id. -/
def register_handler (st : Registry) (component_type handler_class : String) :
    Registry :=
  { handlers := setA component_type handler_class st.handlers,
    instances :=
      if (getA component_type st.instances).isSome then
        delA component_type st.instances
      else st.instances,
    next := st.next }

/-- `ComponentRegistry.get_handler`: `none` when unregistered; otherwise the
cached instance, constructing and caching one on first use. -/
def get_handler (st : Registry) (component_type : String) :
    Option Handler × Registry :=
  match getA component_type st.handlers with
  | none => (none, st)
  | some handler_class =>
    match getA component_type st.instances with
    | some h => (some h, st)
    | none =>
      let h : Handler := ⟨handler_class, st.next⟩
      (some h,
        { st with instances := setA component_type h st.instances,
                  next := st.next + 1 })

/-- `ComponentRegistry.list_handlers` (component type to class name). -/
def list_handlers (st : Registry) : List (String × String) :=
  st.handlers

/-- `ComponentRegistry.unregister_handler`: returns whether the id was
registered, and removes both the class and any cached instance. -/
def unregister_handler (st : Registry) (component_type : String) :
    Bool × Registry :=
  let hs :=
    if (getA component_type st.handlers).isSome then
      (true, delA component_type st.handlers)
    else (false, st.handlers)
  let instances :=
    if (getA component_type st.instances).isSome then
      delA component_type st.instances
    else st.instances
  (hs.1, { handlers := hs.2, instances := instances, next := st.next })

/-- The registry as `__init__` leaves it: three default registrations. -/
def initial_registry : Registry :=
  register_handler
    (register_handler
      (register_handler { handlers := [], instances := [], next := 0 }
        "weather" "WeatherHandler")
      "todo" "TodoHandler")
    "video_editing" "VideoEditingHandler"

/-- Well-formedness of reachable registry states: cached uids are below the
counter and both dicts have unique keys. -/
def Registry.WF (st : Registry) : Prop :=
  (∀ p ∈ st.instances, p.2.uid < st.next) ∧
    (st.handlers.map Prod.fst).Nodup ∧ (st.instances.map Prod.fst).Nodup

/-! ## Tool dispatch in `call_model` (`graph.py`)

Only the per-invocation body of the tool loop is modelled: executing one
tool call produces the `ToolMessage` acknowledgement plus one additional
message per emitted UI component (the component travels on a side channel
keyed to that message).  Executing a known tool is a black-box outcome
(`env`): `ok` is the awaited `CompResult`; `error` carries the exception
text caught by the inner `except` (which also covers a missing required
argument). -/

/-- Output messages of one tool invocation. -/
inductive Msg where
  | tool (content : String) (tool_call_id : String) : Msg
  | ui (content : String) (comp : UIComponent) : Msg

/-- One tool invocation as returned by the model. -/
structure ToolCall where
  name : String
  id : String

/-- Body of `for tool_call in response.tool_calls` in `call_model`. -/
def exec_tool_call (env : ToolCall → Except String CompResult) (tc : ToolCall) :
    List Msg :=
  let outcome : Except String CompResult :=
    if tc.name = "get_weather_data" ∨ tc.name = "get_todo_data" ∨
        tc.name = "get_video_editing_data" then
      env tc
    else
      .ok { result := "Unknown tool: " ++ tc.name, ui_components := [] }
  match outcome with
  | .ok tool_result =>
    Msg.tool tool_result.result tc.id ::
      tool_result.ui_components.map (fun c => Msg.ui tool_result.result c)
  | .error e => [Msg.tool ("Error executing " ++ tc.name ++ ": " ++ e) tc.id]

/-! ## Specification-side definitions

Independent formulations of what the spec's sentences describe, to be
compared with the code embeddings above. -/

/-- Valuation of a little-endian digit list (used to invert `decRepr`). -/
def decVal : List Nat → Nat
  | [] => 0
  | d :: ds => d + 10 * decVal ds

/-- The todo-title rule as the spec phrases it: the title is taken from the
first *line* on which the regex `Title:\s*(.+)` matches, with the default
when no line matches. -/
def specTodoTitleByLine (s : String) : String :=
  match (pySplitLines s).findSome? (fun line => titleSearch line.data) with
  | some g => pyStrip ⟨g⟩
  | none => "Task Plan"

/-- Leftmost whole-text match of `Title:\s*(.+)`, formulated by scanning
start offsets: the captured group at the first offset where the full pattern
matches. -/
def specTitleLeftmost (s : String) : Option (List Char) :=
  (List.range s.data.length).findSome? (fun i => titleMatchAt (s.data.drop i))

/-- The todo-task rule as the spec phrases it: every line matching the
leading-bullet regex contributes its (stripped) group, in document order. -/
def specBulletTasks (s : String) : List String :=
  (pySplitLines s).filterMap (fun line => (bulletMatch line.data).map (fun g => pyStrip ⟨g⟩))

/-- The effective `current` sub-document of a weather response: the value of
the `"current"` key, defaulting to an empty dict (matching
`weather_response.get("current", {})`); `null` marks the non-dict case where
that access would already have raised. -/
def currentOf (r : Json) : Json :=
  match r with
  | .obj kvs => (jLookup kvs "current").getD (.obj [])
  | _ => .null

/-- The effective `condition` sub-document (`current.get("condition", {})`). -/
def conditionOf (r : Json) : Json :=
  match currentOf r with
  | .obj c => (jLookup c "condition").getD (.obj [])
  | _ => .null

/-- Raw `temp_f` entry of the effective current dict, `none` when absent. -/
def tempFLookup (r : Json) : Option Json :=
  match currentOf r with
  | .obj c => jLookup c "temp_f"
  | _ => none

/-- Raw `humidity` entry of the effective current dict. -/
def humidityLookup (r : Json) : Option Json :=
  match currentOf r with
  | .obj c => jLookup c "humidity"
  | _ => none

/-- Raw `wind_mph` entry of the effective current dict. -/
def windLookup (r : Json) : Option Json :=
  match currentOf r with
  | .obj c => jLookup c "wind_mph"
  | _ => none

/-- Raw `text` entry of the effective condition dict. -/
def condTextLookup (r : Json) : Option Json :=
  match conditionOf r with
  | .obj d => jLookup d "text"
  | _ => none

/-- Shape conditions under which `format_weather_data` returns normally: the
effective `current` and `condition` values are dicts, and the condition
`text`, when present, is a string. -/
def weatherShapeJson (r : Json) : Prop :=
  (∃ c, currentOf r = Json.obj c) ∧ (∃ d, conditionOf r = Json.obj d) ∧
    (∀ j, condTextLookup r = some j → ∃ t, j = Json.str t)

/-! ## General lemmas -/

theorem data_eq_nil_iff (s : String) : s.data = [] ↔ s = "" := by
  cases s with
  | mk d =>
    constructor
    · intro h
      rw [show d = [] from h]
    · intro h
      exact congrArg String.data h

theorem append_ne_empty_left (s t : String) (h : s ≠ "") : s ++ t ≠ "" := by
  intro he
  have hd : s.data ++ t.data = [] := by
    have h2 := congrArg String.data he
    rwa [String.data_append] at h2
  exact h ((data_eq_nil_iff s).mp (List.append_eq_nil.mp hd).1)

theorem append_ne_empty_right (s t : String) (h : t ≠ "") : s ++ t ≠ "" := by
  intro he
  have hd : s.data ++ t.data = [] := by
    have h2 := congrArg String.data he
    rwa [String.data_append] at h2
  exact h ((data_eq_nil_iff t).mp (List.append_eq_nil.mp hd).2)

theorem tail_lit_ne_empty {a b c : String} (h : b ≠ "") : (a ++ b) ++ c ≠ "" :=
  append_ne_empty_left _ _ (append_ne_empty_right _ _ h)

/-- Template `weather` never yields empty text. -/
theorem format_response_weather_ne_empty
    (language city temperature condition description : String) :
    format_response_weather language city temperature condition description ≠ "" := by
  unfold format_response_weather
  split
  · exact tail_lit_ne_empty (by decide)
  · split
    · exact tail_lit_ne_empty (by decide)
    · exact tail_lit_ne_empty (by decide)

/-- Template `weather_fallback` never yields empty text. -/
theorem format_response_weather_fallback_ne_empty
    (language city temperature condition description : String) :
    format_response_weather_fallback language city temperature condition description ≠ "" := by
  unfold format_response_weather_fallback
  split
  · exact tail_lit_ne_empty (by decide)
  · split
    · exact tail_lit_ne_empty (by decide)
    · exact tail_lit_ne_empty (by decide)

/-- Template `todo_success` never yields empty text. -/
theorem format_response_todo_success_ne_empty (language title : String) (count : Nat) :
    format_response_todo_success language title count ≠ "" := by
  unfold format_response_todo_success
  split
  · exact append_ne_empty_right _ _ (by decide)
  · split
    · exact append_ne_empty_right _ _ (by decide)
    · exact append_ne_empty_right _ _ (by decide)

/-- Template `video_editing_success` never yields empty text. -/
theorem format_response_video_editing_success_ne_empty (language title : String)
    (removal_count addition_count total_count : Nat) :
    format_response_video_editing_success language title removal_count addition_count
      total_count ≠ "" := by
  unfold format_response_video_editing_success
  split
  · exact append_ne_empty_right _ _ (by decide)
  · split
    · exact append_ne_empty_right _ _ (by decide)
    · exact append_ne_empty_right _ _ (by decide)

/-- Template `video_editing_fallback` never yields empty text. -/
theorem format_response_video_editing_fallback_ne_empty (language : String) :
    format_response_video_editing_fallback language ≠ "" := by
  unfold format_response_video_editing_fallback
  split
  · decide
  · split
    · decide
    · decide

/-! ## Claim C4: language detection -/

/-- C4.  `detect_language` returns `"ja"` exactly when the text contains a
character in the Hiragana (U+3040-U+309F) or Katakana (U+30A0-U+30FF)
ranges; otherwise `"zh"` exactly when it contains a CJK Unified Ideograph
(U+4E00-U+9FFF); otherwise `"en"`.  The Japanese check precedes the Chinese
check, so mixed kana/ideograph text yields `"ja"`, and the function always
returns one of the three tags. -/
theorem claim_C4_detect_language (s : String) :
    (detect_language s = "ja" ↔ ∃ c ∈ s.data,
      (0x3040 ≤ c.toNat ∧ c.toNat ≤ 0x309f) ∨ (0x30a0 ≤ c.toNat ∧ c.toNat ≤ 0x30ff)) ∧
    (detect_language s = "zh" ↔
      (¬∃ c ∈ s.data,
        (0x3040 ≤ c.toNat ∧ c.toNat ≤ 0x309f) ∨ (0x30a0 ≤ c.toNat ∧ c.toNat ≤ 0x30ff)) ∧
      ∃ c ∈ s.data, 0x4e00 ≤ c.toNat ∧ c.toNat ≤ 0x9fff) ∧
    (detect_language s = "en" ↔
      (¬∃ c ∈ s.data,
        (0x3040 ≤ c.toNat ∧ c.toNat ≤ 0x309f) ∨ (0x30a0 ≤ c.toNat ∧ c.toNat ≤ 0x30ff)) ∧
      ¬∃ c ∈ s.data, 0x4e00 ≤ c.toNat ∧ c.toNat ≤ 0x9fff) ∧
    (detect_language s = "ja" ∨ detect_language s = "zh" ∨ detect_language s = "en") := by
  have hkana : s.data.any isKanaChar = true ↔ ∃ c ∈ s.data,
      (0x3040 ≤ c.toNat ∧ c.toNat ≤ 0x309f) ∨ (0x30a0 ≤ c.toNat ∧ c.toNat ≤ 0x30ff) := by
    simp [List.any_eq_true, isKanaChar]
  have hcjk : s.data.any isCJKChar = true ↔
      ∃ c ∈ s.data, 0x4e00 ≤ c.toNat ∧ c.toNat ≤ 0x9fff := by
    simp [List.any_eq_true, isCJKChar]
  by_cases h1 : s.data.any isKanaChar = true
  · have hd : detect_language s = "ja" := by simp [detect_language, h1]
    refine ⟨⟨fun _ => hkana.mp h1, fun _ => hd⟩, ?_, ?_, Or.inl hd⟩
    · rw [hd]
      simp only [iff_def]
      constructor
      · intro hcontra
        exact absurd hcontra (by decide)
      · rintro ⟨hno, _⟩
        exact absurd (hkana.mp h1) hno
    · rw [hd]
      simp only [iff_def]
      constructor
      · intro hcontra
        exact absurd hcontra (by decide)
      · rintro ⟨hno, _⟩
        exact absurd (hkana.mp h1) hno
  · by_cases h2 : s.data.any isCJKChar = true
    · have hd : detect_language s = "zh" := by simp [detect_language, h1, h2]
      refine ⟨?_, ⟨fun _ => ⟨fun hex => h1 (hkana.mpr hex), hcjk.mp h2⟩, fun _ => hd⟩,
        ?_, Or.inr (Or.inl hd)⟩
      · rw [hd]
        constructor
        · intro hcontra
          exact absurd hcontra (by decide)
        · intro hex
          exact absurd (hkana.mpr hex) h1
      · rw [hd]
        constructor
        · intro hcontra
          exact absurd hcontra (by decide)
        · rintro ⟨_, hno⟩
          exact absurd (hcjk.mp h2) hno
    · have hd : detect_language s = "en" := by simp [detect_language, h1, h2]
      refine ⟨?_, ?_,
        ⟨fun _ => ⟨fun hex => h1 (hkana.mpr hex), fun hex => h2 (hcjk.mpr hex)⟩,
          fun _ => hd⟩,
        Or.inr (Or.inr hd)⟩
      · rw [hd]
        constructor
        · intro hcontra
          exact absurd hcontra (by decide)
        · intro hex
          exact absurd (hkana.mpr hex) h1
      · rw [hd]
        constructor
        · intro hcontra
          exact absurd hcontra (by decide)
        · rintro ⟨_, hex⟩
          exact absurd (hcjk.mpr hex) h2

/-- Witness for C4: the spec's concrete examples, derived from the
characterization — Japanese, Chinese and English inputs, plus mixed
kana/ideograph text classified as Japanese. -/
theorem claim_C4_witness :
    detect_language "こんにちは" = "ja" ∧ detect_language "你好" = "zh" ∧
    detect_language "hello" = "en" ∧ detect_language "漢字とかな" = "ja" :=
  ⟨(claim_C4_detect_language "こんにちは").1.mpr ⟨'こ', by decide, by decide⟩,
    (claim_C4_detect_language "你好").2.1.mpr ⟨by decide, '你', by decide, by decide⟩,
    (claim_C4_detect_language "hello").2.2.1.mpr ⟨by decide, by decide⟩,
    (claim_C4_detect_language "漢字とかな").1.mpr ⟨'と', by decide, by decide⟩⟩

/-! ## Claim C8: unknown tool dispatch -/

/-- C8.  A tool invocation whose name matches none of the three known
capabilities produces exactly one acknowledgement message whose text is the
literal `"Unknown tool: "` followed by the name, with no UI-component
message; in particular the dispatch loop body is total (it returns this
message list rather than raising). -/
theorem claim_C8_unknown_tool (env : ToolCall → Except String CompResult)
    (tc : ToolCall) (h1 : tc.name ≠ "get_weather_data")
    (h2 : tc.name ≠ "get_todo_data") (h3 : tc.name ≠ "get_video_editing_data") :
    exec_tool_call env tc = [Msg.tool ("Unknown tool: " ++ tc.name) tc.id] ∧
    pyStartsWith ("Unknown tool: " ++ tc.name) "Unknown tool:" = true ∧
    (∀ content comp, Msg.ui content comp ∉ exec_tool_call env tc) := by
  have hx : exec_tool_call env tc = [Msg.tool ("Unknown tool: " ++ tc.name) tc.id] := by
    unfold exec_tool_call
    have hcond : ¬(tc.name = "get_weather_data" ∨ tc.name = "get_todo_data" ∨
        tc.name = "get_video_editing_data") := by
      rintro (h | h | h) <;> [exact h1 h; exact h2 h; exact h3 h]
    simp [hcond]
  refine ⟨hx, ?_, ?_⟩
  · unfold pyStartsWith
    rw [String.data_append]
    have : "Unknown tool:".data <+: "Unknown tool: ".data ++ tc.name.data :=
      ⟨' ' :: tc.name.data, rfl⟩
    exact List.isPrefixOf_iff_prefix.mpr this
  · intro content comp hmem
    rw [hx] at hmem
    simp at hmem

/-- Witness for C8 at a concrete unknown tool name. -/
theorem claim_C8_witness :
    exec_tool_call (fun _ => Except.error "boom") ⟨"frobnicate", "call_1"⟩ =
      [Msg.tool ("Unknown tool: " ++ "frobnicate") "call_1"] ∧
    pyStartsWith ("Unknown tool: " ++ "frobnicate") "Unknown tool:" = true ∧
    (∀ content comp,
      Msg.ui content comp ∉ exec_tool_call (fun _ => Except.error "boom")
        ⟨"frobnicate", "call_1"⟩) :=
  claim_C8_unknown_tool (fun _ => Except.error "boom") ⟨"frobnicate", "call_1"⟩
    (by decide) (by decide) (by decide)

/-! ## Claim C1: handler totality and result shape -/

/-- Weather handler: non-empty text and exactly one UI component, for every
request, language and external-call outcome. -/
theorem weather_process_request_shape (request language : String) (wenv : WeatherEnv) :
    (weather_process_request request language wenv).result ≠ "" ∧
    (weather_process_request request language wenv).ui_components.length = 1 := by
  simp only [weather_process_request]
  split
  · exact ⟨format_response_weather_ne_empty _ _ _ _ _, rfl⟩
  · simp only [create_fallback_weather_response]
    exact ⟨format_response_weather_fallback_ne_empty _ _ _ _ _, rfl⟩

/-- Todo handler: non-empty text and exactly one UI component. -/
theorem todo_process_request_shape (request language : String)
    (llm : Except Unit (Option String)) :
    (todo_process_request request language llm).result ≠ "" ∧
    (todo_process_request request language llm).ui_components.length = 1 := by
  cases llm with
  | error e =>
    simp only [todo_process_request, create_fallback_todo_response]
    exact ⟨append_ne_empty_right _ _ (by decide), rfl⟩
  | ok ai_response =>
    simp only [todo_process_request]
    exact ⟨format_response_todo_success_ne_empty _ _ _, rfl⟩

/-- Video-editing handler: non-empty text and exactly one UI component. -/
theorem video_process_request_shape (request language : String)
    (llm : Except Unit (Option String)) (loads : String → Except Unit Json) :
    (video_process_request request language llm loads).result ≠ "" ∧
    (video_process_request request language llm loads).ui_components.length = 1 := by
  cases llm with
  | error e =>
    simp only [video_process_request, create_fallback_video_editing_response]
    exact ⟨format_response_video_editing_fallback_ne_empty _, rfl⟩
  | ok content =>
    simp only [video_process_request]
    exact ⟨format_response_video_editing_success_ne_empty _ _ _ _ _, rfl⟩

/-- C1.  For every request string, language code and outcome of the external
calls, `process_request` of the weather, todo and video-editing handlers
returns (total function, never an exception) a result whose text is
non-empty and whose `ui_components` list has length at least 1. -/
theorem claim_C1_process_request_total (request language : String) (wenv : WeatherEnv)
    (tllm vllm : Except Unit (Option String)) (loads : String → Except Unit Json) :
    ((weather_process_request request language wenv).result ≠ "" ∧
      1 ≤ (weather_process_request request language wenv).ui_components.length) ∧
    ((todo_process_request request language tllm).result ≠ "" ∧
      1 ≤ (todo_process_request request language tllm).ui_components.length) ∧
    ((video_process_request request language vllm loads).result ≠ "" ∧
      1 ≤ (video_process_request request language vllm loads).ui_components.length) := by
  obtain ⟨w1, w2⟩ := weather_process_request_shape request language wenv
  obtain ⟨t1, t2⟩ := todo_process_request_shape request language tllm
  obtain ⟨v1, v2⟩ := video_process_request_shape request language vllm loads
  exact ⟨⟨w1, by omega⟩, ⟨t1, by omega⟩, ⟨v1, by omega⟩⟩

/-! ## Claim C3: weather condition mapping and round-trip -/

/-- C3.  The condition text is mapped to its icon/gradient/description triple
by case-insensitive substring matching, tried in the fixed order
`rain|drizzle`, `cloud`, `sun|clear`, `snow`, with the first matching
category winning and anything else getting the pleasant default; and the
concrete mock response (97.2°F, "Sunny", 4.7 mph wind, 45% humidity) is
formatted to exactly the claimed output, whose description contains "sun". -/
theorem claim_C3_weather_mapping :
    (∀ city temperature condition_text humidity wind_speed : String,
      ((pyContains (pyLower condition_text) "rain" ||
          pyContains (pyLower condition_text) "drizzle") = true →
        (map_weather_condition city temperature condition_text humidity wind_speed).icon =
            "🌧️" ∧
        (map_weather_condition city temperature condition_text humidity wind_speed).gradient =
            "linear-gradient(135deg, #636e72 0%, #2d3436 100%)" ∧
        (map_weather_condition city temperature condition_text humidity
            wind_speed).description = "Rainy weather today") ∧
      ((pyContains (pyLower condition_text) "rain" ||
          pyContains (pyLower condition_text) "drizzle") = false →
        pyContains (pyLower condition_text) "cloud" = true →
        (map_weather_condition city temperature condition_text humidity wind_speed).icon =
            "⛅" ∧
        (map_weather_condition city temperature condition_text humidity wind_speed).gradient =
            "linear-gradient(135deg, #74b9ff 0%, #0984e3 100%)" ∧
        (map_weather_condition city temperature condition_text humidity
            wind_speed).description = "Partly cloudy skies") ∧
      ((pyContains (pyLower condition_text) "rain" ||
          pyContains (pyLower condition_text) "drizzle") = false →
        pyContains (pyLower condition_text) "cloud" = false →
        (pyContains (pyLower condition_text) "sun" ||
          pyContains (pyLower condition_text) "clear") = true →
        (map_weather_condition city temperature condition_text humidity wind_speed).icon =
            "☀️" ∧
        (map_weather_condition city temperature condition_text humidity wind_speed).gradient =
            "linear-gradient(135deg, #fdcb6e 0%, #e17055 100%)" ∧
        (map_weather_condition city temperature condition_text humidity
            wind_speed).description = "Clear and sunny") ∧
      ((pyContains (pyLower condition_text) "rain" ||
          pyContains (pyLower condition_text) "drizzle") = false →
        pyContains (pyLower condition_text) "cloud" = false →
        (pyContains (pyLower condition_text) "sun" ||
          pyContains (pyLower condition_text) "clear") = false →
        pyContains (pyLower condition_text) "snow" = true →
        (map_weather_condition city temperature condition_text humidity wind_speed).icon =
            "❄️" ∧
        (map_weather_condition city temperature condition_text humidity wind_speed).gradient =
            "linear-gradient(135deg, #ddd6fe 0%, #a78bfa 100%)" ∧
        (map_weather_condition city temperature condition_text humidity
            wind_speed).description = "Snowy conditions") ∧
      ((pyContains (pyLower condition_text) "rain" ||
          pyContains (pyLower condition_text) "drizzle") = false →
        pyContains (pyLower condition_text) "cloud" = false →
        (pyContains (pyLower condition_text) "sun" ||
          pyContains (pyLower condition_text) "clear") = false →
        pyContains (pyLower condition_text) "snow" = false →
        (map_weather_condition city temperature condition_text humidity wind_speed).icon =
            "🌤️" ∧
        (map_weather_condition city temperature condition_text humidity wind_speed).gradient =
            "linear-gradient(135deg, #fd79a8 0%, #fdcb6e 100%)" ∧
        (map_weather_condition city temperature condition_text humidity
            wind_speed).description = "Pleasant weather")) ∧
    (∀ city : String,
      format_weather_data
        (Json.obj [("current", Json.obj
          [("temp_f", Json.num "97.2"),
           ("condition", Json.obj [("text", Json.str "Sunny")]),
           ("wind_mph", Json.num "4.7"),
           ("humidity", Json.num "45")])]) city =
      Except.ok
        { city := city, temperature := "97.2°F", condition := "Sunny",
          humidity := "45%", windSpeed := "4.7 mph", icon := "☀️",
          gradient := "linear-gradient(135deg, #fdcb6e 0%, #e17055 100%)",
          description := "Clear and sunny" }) ∧
    (pyContains (pyLower "Clear and sunny") "sun" = true ∨
      pyContains (pyLower "Clear and sunny") "clear" = true) := by
  refine ⟨?_, ?_, ?_⟩
  · intro city temperature condition_text humidity wind_speed
    refine ⟨?_, ?_, ?_, ?_, ?_⟩
    · intro h1
      simp [map_weather_condition, h1]
    · intro h1 h2
      simp [map_weather_condition, h1, h2]
    · intro h1 h2 h3
      simp [map_weather_condition, h1, h2, h3]
    · intro h1 h2 h3 h4
      simp [map_weather_condition, h1, h2, h3, h4]
    · intro h1 h2 h3 h4
      simp [map_weather_condition, h1, h2, h3, h4]
  · intro city
    rfl
  · left
    decide

/-- Witness for C3: the mapping theorem applied at condition text `"Sunny"`,
whose lowered form contains `"sun"` and matches no earlier category. -/
theorem claim_C3_witness :
    (map_weather_condition "Tokyo" "97.2°F" "Sunny" "45%" "4.7 mph").icon = "☀️" ∧
    (map_weather_condition "Tokyo" "97.2°F" "Sunny" "45%" "4.7 mph").gradient =
      "linear-gradient(135deg, #fdcb6e 0%, #e17055 100%)" ∧
    (map_weather_condition "Tokyo" "97.2°F" "Sunny" "45%" "4.7 mph").description =
      "Clear and sunny" :=
  ((claim_C3_weather_mapping.1 "Tokyo" "97.2°F" "Sunny" "45%" "4.7 mph").2.2.1
    (by decide) (by decide) (by decide))

/-! ## Claim C10: shape tolerance of `format_weather_data` -/

/-- The mapping stage passes city/temperature/condition/humidity/windSpeed
through unchanged in every branch. -/
theorem map_weather_condition_fields
    (city temperature condition_text humidity wind_speed : String) :
    (map_weather_condition city temperature condition_text humidity wind_speed).city =
        city ∧
    (map_weather_condition city temperature condition_text humidity
        wind_speed).temperature = temperature ∧
    (map_weather_condition city temperature condition_text humidity
        wind_speed).condition = condition_text ∧
    (map_weather_condition city temperature condition_text humidity
        wind_speed).humidity = humidity ∧
    (map_weather_condition city temperature condition_text humidity
        wind_speed).windSpeed = wind_speed := by
  simp only [map_weather_condition]
  repeat' split
  all_goals exact ⟨rfl, rfl, rfl, rfl, rfl⟩

/-- C10 counterexample: in this response the `current` entry and its
`condition` entry are both dicts, yet `format_weather_data` raises (the
embedded error) because the condition `text` is a number and `.lower()` on it
fails — refuting the claim that every such dict-shaped response produces a
populated success output. -/
theorem claim_C10_counterexample :
    format_weather_data
      (Json.obj [("current",
        Json.obj [("condition", Json.obj [("text", Json.num "5")])])]) "X" =
      Except.error () ∧
    (∃ c, currentOf
      (Json.obj [("current",
        Json.obj [("condition", Json.obj [("text", Json.num "5")])])]) = Json.obj c) ∧
    (∃ d, conditionOf
      (Json.obj [("current",
        Json.obj [("condition", Json.obj [("text", Json.num "5")])])]) = Json.obj d) :=
  ⟨rfl, ⟨[("condition", Json.obj [("text", Json.num "5")])], rfl⟩,
    ⟨[("text", Json.num "5")], rfl⟩⟩

/-- C10 (amended).  For every dict response whose effective `current` and
`condition` values are dicts and whose condition `text`, when present, is a
string, `format_weather_data` returns normally with a fully populated output,
substituting the defaults: missing `temp_f` gives temperature `"70°F"`,
missing text gives condition `"Clear"` (hence the sunny icon), missing
`humidity` gives `"50%"`, missing `wind_mph` gives `"5 mph"`. -/
theorem claim_C10_amended (r : Json) (city : String)
    (hobj : ∃ kvs, r = Json.obj kvs) (hshape : weatherShapeJson r) :
    ∃ out, format_weather_data r city = Except.ok out ∧
      out.city = city ∧
      (tempFLookup r = none → out.temperature = "70°F") ∧
      (condTextLookup r = none →
        out.condition = "Clear" ∧ out.icon = "☀️" ∧
        out.description = "Clear and sunny") ∧
      (humidityLookup r = none → out.humidity = "50%") ∧
      (windLookup r = none → out.windSpeed = "5 mph") := by
  obtain ⟨kvs, rfl⟩ := hobj
  obtain ⟨⟨c, hc⟩, ⟨d, hd⟩, htext⟩ := hshape
  have hc' : (jLookup kvs "current").getD (Json.obj []) = Json.obj c := hc
  have hd' : (jLookup c "condition").getD (Json.obj []) = Json.obj d := by
    have h0 := hd
    simp only [conditionOf, hc] at h0
    exact h0
  have e1 : dictGet (Json.obj kvs) "current" (Json.obj []) = Except.ok (Json.obj c) := by
    simp only [dictGet, hc']
  have e2 : dictGet (Json.obj c) "condition" (Json.obj []) = Except.ok (Json.obj d) := by
    simp only [dictGet, hd']
  have htf : tempFLookup (Json.obj kvs) = jLookup c "temp_f" := by
    simp only [tempFLookup, hc]
  have hhu : humidityLookup (Json.obj kvs) = jLookup c "humidity" := by
    simp only [humidityLookup, hc]
  have hwi : windLookup (Json.obj kvs) = jLookup c "wind_mph" := by
    simp only [windLookup, hc]
  have hct : condTextLookup (Json.obj kvs) = jLookup d "text" := by
    simp only [condTextLookup, hd]
  have hstr : ∃ t, (jLookup d "text").getD (Json.str "Clear") = Json.str t := by
    cases hjt : jLookup d "text" with
    | none => exact ⟨"Clear", rfl⟩
    | some j =>
      obtain ⟨t, rfl⟩ := htext j (by rw [hct, hjt])
      exact ⟨t, rfl⟩
  obtain ⟨t, ht⟩ := hstr
  refine ⟨map_weather_condition city
      (pyStr ((jLookup c "temp_f").getD (Json.num "70")) ++ "°F") t
      (pyStr ((jLookup c "humidity").getD (Json.num "50")) ++ "%")
      (pyStr ((jLookup c "wind_mph").getD (Json.num "5")) ++ " mph"), ?_, ?_, ?_, ?_, ?_, ?_⟩
  · simp only [format_weather_data, bind, Except.bind, dictGet, hc', hd', ht]
  · exact (map_weather_condition_fields _ _ _ _ _).1
  · intro h0
    rw [htf] at h0
    rw [(map_weather_condition_fields _ _ _ _ _).2.1, h0]
    rfl
  · intro h0
    rw [hct] at h0
    rw [h0] at ht
    have ht' : t = "Clear" := by
      cases ht
      rfl
    subst ht'
    refine ⟨(map_weather_condition_fields _ _ _ _ _).2.2.1, ?_, ?_⟩
    · unfold map_weather_condition
      have d1 : (pyContains (pyLower "Clear") "rain" ||
          pyContains (pyLower "Clear") "drizzle") = false := by decide
      have d2 : pyContains (pyLower "Clear") "cloud" = false := by decide
      have d3 : (pyContains (pyLower "Clear") "sun" ||
          pyContains (pyLower "Clear") "clear") = true := by decide
      simp only [d1, d2, d3, Bool.false_eq_true, if_false, if_true]
    · unfold map_weather_condition
      have d1 : (pyContains (pyLower "Clear") "rain" ||
          pyContains (pyLower "Clear") "drizzle") = false := by decide
      have d2 : pyContains (pyLower "Clear") "cloud" = false := by decide
      have d3 : (pyContains (pyLower "Clear") "sun" ||
          pyContains (pyLower "Clear") "clear") = true := by decide
      simp only [d1, d2, d3, Bool.false_eq_true, if_false, if_true]
  · intro h0
    rw [hhu] at h0
    rw [(map_weather_condition_fields _ _ _ _ _).2.2.2.1, h0]
    rfl
  · intro h0
    rw [hwi] at h0
    rw [(map_weather_condition_fields _ _ _ _ _).2.2.2.2, h0]
    rfl

/-! ## Claim C9: registry invariants -/

theorem getA_setA_self {α : Type} (k : String) (v : α) (l : List (String × α)) :
    getA k (setA k v l) = some v := by
  induction l with
  | nil => simp [getA, setA]
  | cons kv rest ih =>
    by_cases h : kv.1 = k
    · simp [setA, h, getA]
    · simp only [setA, if_neg h]
      simpa [getA, List.find?_cons, show (kv.1 == k) = false by simpa using h] using ih

theorem getA_eq_none_of_not_mem {α : Type} (k : String) (l : List (String × α))
    (h : k ∉ l.map Prod.fst) : getA k l = none := by
  induction l with
  | nil => simp [getA]
  | cons kv rest ih =>
    simp only [List.map_cons, List.mem_cons] at h
    push_neg at h
    simpa [getA, List.find?_cons, show (kv.1 == k) = false by simpa using (Ne.symm h.1)]
      using ih h.2

theorem getA_mem {α : Type} (k : String) (v : α) (l : List (String × α))
    (h : getA k l = some v) : (k, v) ∈ l := by
  induction l with
  | nil => simp [getA] at h
  | cons kv rest ih =>
    by_cases hb : kv.1 = k
    · simp only [getA, List.find?_cons, show (kv.1 == k) = true by simpa using hb,
        Option.map_some] at h
      have : kv = (k, v) := by
        cases kv
        simp_all
      simp [this]
    · simp only [getA, List.find?_cons, show (kv.1 == k) = false by simpa using hb] at h
      exact List.mem_cons_of_mem _ (ih h)

theorem delA_sublist {α : Type} (k : String) (l : List (String × α)) :
    (delA k l).Sublist l := by
  induction l with
  | nil => simp [delA]
  | cons kv rest ih =>
    by_cases h : kv.1 = k
    · simp [delA, h]
    · simp only [delA, if_neg h]
      exact ih.cons₂ kv

theorem getA_delA_self {α : Type} (k : String) (l : List (String × α))
    (hnd : (l.map Prod.fst).Nodup) : getA k (delA k l) = none := by
  induction l with
  | nil => simp [delA, getA]
  | cons kv rest ih =>
    simp only [List.map_cons, List.nodup_cons] at hnd
    by_cases h : kv.1 = k
    · simp only [delA, if_pos h]
      exact getA_eq_none_of_not_mem k rest (h ▸ hnd.1)
    · simp only [delA, if_neg h]
      simpa [getA, List.find?_cons, show (kv.1 == k) = false by simpa using h]
        using ih hnd.2

theorem mem_keys_setA {α : Type} (a k : String) (v : α) (l : List (String × α)) :
    a ∈ (setA k v l).map Prod.fst ↔ a = k ∨ a ∈ l.map Prod.fst := by
  induction l with
  | nil => simp [setA]
  | cons kv rest ih =>
    by_cases h : kv.1 = k
    · subst h
      simp [setA]
    · simp only [setA, if_neg h, List.map_cons, List.mem_cons, ih]
      tauto

theorem setA_keys_nodup {α : Type} (k : String) (v : α) (l : List (String × α))
    (hnd : (l.map Prod.fst).Nodup) : ((setA k v l).map Prod.fst).Nodup := by
  induction l with
  | nil => simp [setA]
  | cons kv rest ih =>
    simp only [List.map_cons, List.nodup_cons] at hnd
    by_cases h : kv.1 = k
    · subst h
      rw [show setA kv.1 v (kv :: rest) = (kv.1, v) :: rest from by simp [setA]]
      simpa using hnd
    · simp only [setA, if_neg h, List.map_cons, List.nodup_cons, mem_keys_setA]
      refine ⟨?_, ih hnd.2⟩
      rintro (h' | h')
      · exact h h'
      · exact hnd.1 h'

theorem mem_setA {α : Type} (p : String × α) (k : String) (v : α)
    (l : List (String × α)) (h : p ∈ setA k v l) : p = (k, v) ∨ p ∈ l := by
  induction l with
  | nil => simpa [setA] using h
  | cons kv rest ih =>
    by_cases hk : kv.1 = k
    · simp only [setA, if_pos hk, List.mem_cons] at h
      rcases h with h | h
      · exact Or.inl h
      · exact Or.inr (List.mem_cons_of_mem _ h)
    · simp only [setA, if_neg hk, List.mem_cons] at h
      rcases h with h | h
      · exact Or.inr (by simp [h])
      · rcases ih h with h' | h'
        · exact Or.inl h'
        · exact Or.inr (List.mem_cons_of_mem _ h')

/-- Registering never touches the handler-class dict keys beyond `setA`, and
well-formedness survives every registry operation. -/
theorem registry_wf_preserved (st : Registry) (t cls : String) (hwf : st.WF) :
    (register_handler st t cls).WF ∧ (get_handler st t).2.WF ∧
      (unregister_handler st t).2.WF := by
  obtain ⟨hbound, hhnd, hind⟩ := hwf
  refine ⟨⟨?_, ?_, ?_⟩, ?_, ⟨?_, ?_, ?_⟩⟩
  · intro p hp
    simp only [register_handler] at hp
    split at hp
    · exact hbound p ((delA_sublist t st.instances).subset hp)
    · exact hbound p hp
  · exact setA_keys_nodup t cls st.handlers hhnd
  · simp only [register_handler]
    split
    · exact hind.sublist ((delA_sublist t st.instances).map Prod.fst)
    · exact hind
  · simp only [get_handler]
    cases hh : getA t st.handlers with
    | none => exact ⟨hbound, hhnd, hind⟩
    | some c0 =>
      cases hi : getA t st.instances with
      | some h1 => exact ⟨hbound, hhnd, hind⟩
      | none =>
        refine ⟨?_, hhnd, setA_keys_nodup t _ st.instances hind⟩
        intro p hp
        rcases mem_setA p t _ st.instances hp with h' | h'
        · subst h'
          exact Nat.lt_succ_self _
        · exact Nat.lt_succ_of_lt (hbound p h')
  · intro p hp
    simp only [unregister_handler] at hp
    split at hp
    · exact hbound p ((delA_sublist t st.instances).subset hp)
    · exact hbound p hp
  · simp only [unregister_handler]
    split
    · exact hhnd.sublist ((delA_sublist t st.handlers).map Prod.fst)
    · exact hhnd
  · simp only [unregister_handler]
    split
    · exact hind.sublist ((delA_sublist t st.instances).map Prod.fst)
    · exact hind

/-- C9.  The registry keeps the singleton-instance-per-id contract:
`get_handler` is `none` for unregistered ids; after a registration the cache
for that id is empty and the first `get_handler` constructs an instance of
the registered class and caches it; repeated `get_handler` calls return the
identical instance and state; the instance constructed after re-registration
is distinct from any previously cached one; `unregister_handler` returns
exactly whether the id was registered and removes both the class and the
cached instance.  Well-formedness is preserved by every operation and holds
for the initial registry. -/
theorem claim_C9_registry (st : Registry) (t cls : String) :
    (getA t st.handlers = none → get_handler st t = (none, st)) ∧
    (st.WF →
      getA t (register_handler st t cls).instances = none ∧
      (get_handler (register_handler st t cls) t).1 = some ⟨cls, st.next⟩ ∧
      getA t ((get_handler (register_handler st t cls) t).2).instances =
        some ⟨cls, st.next⟩) ∧
    (∀ h st', get_handler st t = (some h, st') → get_handler st' t = (some h, st')) ∧
    (st.WF → ∀ h0, getA t st.instances = some h0 → (⟨cls, st.next⟩ : Handler) ≠ h0) ∧
    ((unregister_handler st t).1 = (getA t st.handlers).isSome) ∧
    (st.WF → getA t (unregister_handler st t).2.handlers = none ∧
      getA t (unregister_handler st t).2.instances = none) ∧
    (st.WF → (register_handler st t cls).WF ∧ (get_handler st t).2.WF ∧
      (unregister_handler st t).2.WF) ∧
    initial_registry.WF := by
  refine ⟨?_, ?_, ?_, ?_, ?_, ?_, registry_wf_preserved st t cls, ?_⟩
  · intro h
    simp [get_handler, h]
  · intro hwf
    have hinst : getA t (register_handler st t cls).instances = none := by
      simp only [register_handler]
      split
      · exact getA_delA_self t st.instances hwf.2.2
      · rename_i hno
        exact Option.not_isSome_iff_eq_none.mp hno
    refine ⟨hinst, ?_, ?_⟩
    · simp only [get_handler, register_handler, getA_setA_self]
      simp only [register_handler] at hinst
      simp [hinst]
    · simp only [get_handler, register_handler, getA_setA_self]
      simp only [register_handler] at hinst
      simp [hinst, getA_setA_self]
  · intro h st' hget
    simp only [get_handler] at hget
    cases hh : getA t st.handlers with
    | none =>
      rw [hh] at hget
      simp at hget
    | some c0 =>
      rw [hh] at hget
      cases hi : getA t st.instances with
      | some h1 =>
        rw [hi] at hget
        simp only [Prod.mk.injEq, Option.some.injEq] at hget
        obtain ⟨rfl, rfl⟩ := hget
        simp [get_handler, hh, hi]
      | none =>
        rw [hi] at hget
        simp only [Prod.mk.injEq, Option.some.injEq] at hget
        obtain ⟨rfl, rfl⟩ := hget
        simp [get_handler, hh, getA_setA_self]
  · intro hwf h0 hmem he
    have hlt : h0.uid < st.next := hwf.1 (t, h0) (getA_mem t h0 st.instances hmem)
    have heq : st.next = h0.uid := congrArg Handler.uid he
    omega
  · simp only [unregister_handler]
    split
    · rename_i hyes
      simp [hyes]
    · rename_i hno
      simp [Option.not_isSome_iff_eq_none.mp hno]
  · intro hwf
    constructor
    · simp only [unregister_handler]
      split
      · exact getA_delA_self t st.handlers hwf.2.1
      · rename_i hno
        exact Option.not_isSome_iff_eq_none.mp hno
    · simp only [unregister_handler]
      split
      · exact getA_delA_self t st.instances hwf.2.2
      · rename_i hno
        exact Option.not_isSome_iff_eq_none.mp hno
  · unfold Registry.WF
    refine ⟨?_, ?_, ?_⟩
    · intro p hp
      simp [initial_registry, register_handler, setA, getA] at hp
    · decide
    · decide

/-- Witness for C9: concrete consequences at the initial registry — lookup of
an unknown id, the instance constructed after re-registration, and the
unregister return value. -/
theorem claim_C9_witness :
    get_handler initial_registry "scheduler" = (none, initial_registry) ∧
    (get_handler (register_handler initial_registry "todo" "CustomTodoHandler")
        "todo").1 = some ⟨"CustomTodoHandler", initial_registry.next⟩ ∧
    (unregister_handler initial_registry "todo").1 =
      (getA "todo" initial_registry.handlers).isSome := by
  have thm := claim_C9_registry initial_registry "todo" "CustomTodoHandler"
  have thm2 := claim_C9_registry initial_registry "scheduler" "CustomTodoHandler"
  have hwf : initial_registry.WF := thm.2.2.2.2.2.2.2
  exact ⟨thm2.1 (by decide), (thm.2.1 hwf).2.1, thm.2.2.2.2.1⟩

/-! ## Claim C2: todo parsing -/

/-- The code's whole-text regex search equals the offset-scan formulation:
the captured group at the first start offset where `Title:\s*(.+)` fully
matches. -/
theorem titleSearch_eq_leftmost (cs : List Char) :
    titleSearch cs = (List.range cs.length).findSome? (fun i => titleMatchAt (cs.drop i)) := by
  induction cs with
  | nil => simp [titleSearch]
  | cons c rest ih =>
    rw [titleSearch, List.length_cons, List.range_succ_eq_map, List.findSome?_cons]
    simp only [List.drop_zero]
    cases h : titleMatchAt (c :: rest) with
    | some g => simp [h]
    | none =>
      simp only [h, List.findSome?_map]
      exact ih

/-- The bullet-collecting fold of the parser equals the per-line
`filterMap` (tasks in document order), for any initial accumulator. -/
theorem bullet_foldl_eq_filterMap (lines : List String) (acc : List String) :
    lines.foldl
      (fun acc line =>
        match bulletMatch line.data with
        | some g => acc ++ [pyStrip ⟨g⟩]
        | none => acc) acc =
      acc ++ lines.filterMap (fun line => (bulletMatch line.data).map fun g => pyStrip ⟨g⟩) := by
  induction lines generalizing acc with
  | nil => simp
  | cons line rest ih =>
    cases h : bulletMatch line.data with
    | some g =>
      simp only [List.foldl_cons, h]
      rw [ih]
      simp [List.filterMap_cons, h]
    | none =>
      simp only [List.foldl_cons, h]
      rw [ih]
      simp [List.filterMap_cons, h]

/-- C2 counterexample: on the completion `"Title:\nGuitar"` no single line
matches `Title:\s*(.+)` (so the claimed per-line rule would default to
`"Task Plan"`), yet the code's whole-text search lets `\s*` cross the line
break and takes the title `"Guitar"` from the next line. -/
theorem claim_C2_counterexample :
    (generate_task_plan (some "Title:\nGuitar")).title = "Guitar" ∧
    specTodoTitleByLine "Title:\nGuitar" = "Task Plan" ∧
    ("Guitar" : String) ≠ "Task Plan" :=
  ⟨rfl, rfl, by decide⟩

/-- C2 (amended).  The title is the stripped capture of the leftmost
whole-completion match of `Title:\s*(.+)` — whose `\s*` may span line breaks
— defaulting to `"Task Plan"` when the pattern matches nowhere; every line
matching a leading `-`/`*` bullet contributes its stripped capture, in
document order; the fixed 4-item generic list is substituted exactly when
zero bullet lines match; and the concrete body parses to
title `"Learn Guitar"` with the three bullet tasks. -/
theorem claim_C2_amended (content : String) :
    ((generate_task_plan (some content)).title =
      match specTitleLeftmost content with
      | some g => pyStrip ⟨g⟩
      | none => "Task Plan") ∧
    (specBulletTasks content ≠ [] →
      (generate_task_plan (some content)).tasks = specBulletTasks content) ∧
    (specBulletTasks content = [] →
      (generate_task_plan (some content)).tasks = generic_todo_tasks) ∧
    generate_task_plan
        (some "Title: Learn Guitar\n\nTasks:\n- Buy a guitar\n- Practice daily\n- Learn chords") =
      { title := "Learn Guitar",
        tasks := ["Buy a guitar", "Practice daily", "Learn chords"] } := by
  have htasks : (generate_task_plan (some content)).tasks =
      if (specBulletTasks content).isEmpty then generic_todo_tasks
      else specBulletTasks content := by
    simp only [generate_task_plan, specBulletTasks]
    rw [bullet_foldl_eq_filterMap]
    simp
  refine ⟨?_, ?_, ?_, rfl⟩
  · simp only [generate_task_plan, specTitleLeftmost]
    rw [titleSearch_eq_leftmost]
  · intro hne
    rw [htasks, if_neg (by simpa [List.isEmpty_iff] using hne)]
  · intro heq
    rw [htasks, if_pos (by simpa [List.isEmpty_iff] using heq)]

/-- Witness for C2 (amended): a two-bullet completion where the bullet lines
are non-empty, so the parsed tasks are exactly the per-line captures. -/
theorem claim_C2_amended_witness :
    (generate_task_plan (some "- alpha\n- beta")).tasks =
      specBulletTasks "- alpha\n- beta" :=
  (claim_C2_amended "- alpha\n- beta").2.1 (by decide)

/-! ## Claim C5: sequential task ids -/

theorem decDigitsF_val (fuel n : Nat) (h : n < fuel) :
    decVal (decDigitsF fuel n) = n := by
  induction fuel generalizing n with
  | zero => omega
  | succ fuel ih =>
    rw [decDigitsF]
    split
    · simp [decVal]
    · rename_i h10
      push_neg at h10
      have hlt : n / 10 < fuel := by
        have hdn : n / 10 < n := Nat.div_lt_self (by omega) (by omega)
        omega
      simp only [decVal, ih (n / 10) hlt]
      omega

theorem decDigitsF_lt10 (fuel n : Nat) : ∀ d ∈ decDigitsF fuel n, d < 10 := by
  induction fuel generalizing n with
  | zero => simp [decDigitsF]
  | succ fuel ih =>
    rw [decDigitsF]
    split
    · rename_i h10
      simpa using h10
    · intro d hd
      rcases List.mem_cons.mp hd with h | h
      · subst h
        omega
      · exact ih (n / 10) d h

theorem pyDigitChar_toNat (d : Nat) (h : d < 10) : (pyDigitChar d).toNat = 48 + d := by
  interval_cases d <;> rfl

theorem digit_map_inj (l1 l2 : List Nat) (h1 : ∀ d ∈ l1, d < 10)
    (h2 : ∀ d ∈ l2, d < 10) (he : l1.map pyDigitChar = l2.map pyDigitChar) :
    l1 = l2 := by
  induction l1 generalizing l2 with
  | nil =>
    cases l2 with
    | nil => rfl
    | cons b bs => simp at he
  | cons a as ih =>
    cases l2 with
    | nil => simp at he
    | cons b bs =>
      simp only [List.map_cons, List.cons.injEq] at he
      have ha := h1 a (by simp)
      have hb := h2 b (by simp)
      have hv : 48 + a = 48 + b := by
        rw [← pyDigitChar_toNat a ha, ← pyDigitChar_toNat b hb, he.1]
      have hab : a = b := by omega
      subst hab
      rw [ih bs (fun d hd => h1 d (List.mem_cons_of_mem a hd))
        (fun d hd => h2 d (List.mem_cons_of_mem a hd)) he.2]

/-- Decimal rendering is injective, so sequential tags are distinct. -/
theorem decRepr_injective (m n : Nat) (h : decRepr m = decRepr n) : m = n := by
  have hdata := congrArg String.data h
  simp only [decRepr] at hdata
  have hrev := List.reverse_injective hdata
  have hmap := digit_map_inj _ _ (decDigitsF_lt10 _ _) (decDigitsF_lt10 _ _) hrev
  have hm := decDigitsF_val (m + 1) m (Nat.lt_succ_self m)
  have hn := decDigitsF_val (n + 1) n (Nat.lt_succ_self n)
  rw [← hm, hmap, hn]

theorem str_of_data_inj {b c : String} (h : b.data = c.data) : b = c := by
  cases b with
  | mk db =>
    cases c with
    | mk dc =>
      have h2 : db = dc := h
      rw [h2]

theorem append_left_cancel_str (a b c : String) (h : a ++ b = a ++ c) : b = c := by
  have hd := congrArg String.data h
  rw [String.data_append, String.data_append] at hd
  exact str_of_data_inj (List.append_cancel_left hd)

theorem assignTaskIds_ids (tag : String) (i : Nat) (ts : List RawTask) :
    (assignTaskIds tag i ts).map (fun task => task.id) =
      (List.range ts.length).map (fun k => tag ++ decRepr (i + k + 1)) := by
  induction ts generalizing i with
  | nil => simp [assignTaskIds]
  | cons t ts ih =>
    have htail := ih (i + 1)
    rw [assignTaskIds, List.map_cons, htail, List.length_cons,
      List.range_succ_eq_map, List.map_cons, List.map_map]
    refine congrArg₂ List.cons rfl (List.map_congr_left ?_)
    intro k _
    show tag ++ decRepr (i + 1 + k + 1) = tag ++ decRepr (i + (k + 1) + 1)
    rw [show i + 1 + k + 1 = i + (k + 1) + 1 from by omega]

theorem assignTaskIds_length (tag : String) (i : Nat) (ts : List RawTask) :
    (assignTaskIds tag i ts).length = ts.length := by
  have h := congrArg List.length (assignTaskIds_ids tag i ts)
  simpa using h

theorem assignTaskIds_completed (tag : String) (i : Nat) (ts : List RawTask) :
    (assignTaskIds tag i ts).map (fun task => task.completed) =
      List.replicate ts.length false := by
  induction ts generalizing i with
  | nil => simp [assignTaskIds]
  | cons t ts ih =>
    rw [assignTaskIds, List.map_cons, ih (i + 1), List.length_cons,
      List.replicate_succ]

theorem assignTaskIds_ids_nodup (tag : String) (i : Nat) (ts : List RawTask) :
    ((assignTaskIds tag i ts).map (fun task => task.id)).Nodup := by
  rw [assignTaskIds_ids]
  refine List.Nodup.map ?_ (List.nodup_range _)
  intro k1 k2 he
  have h1 := append_left_cancel_str tag _ _ he
  have h2 := decRepr_injective _ _ h1
  omega

/-- Ids of `assignTaskIds` starting at index 0, in the `tag_{k+1}` form. -/
theorem assignTaskIds_ids_zero (tag : String) (ts : List RawTask) :
    (assignTaskIds tag 0 ts).map (fun task => task.id) =
      (List.range (assignTaskIds tag 0 ts).length).map (fun k => tag ++ decRepr (k + 1)) := by
  rw [assignTaskIds_ids, assignTaskIds_length]
  refine List.map_congr_left ?_
  intro k _
  rw [Nat.zero_add]

/-- C5 counterexample: a parsed completion supplying five subtraction tasks
yields five output entries, refuting the unconditional 2-to-4 bound. -/
theorem claim_C5_counterexample :
    (generate_video_editing_plan "edit my video" (some "model output")
      (fun _ => Except.ok (Json.obj
        [("subtractionTasks", Json.arr
          [Json.str "a", Json.str "b", Json.str "c", Json.str "d", Json.str "e"]),
         ("additionTasks", Json.arr [Json.str "x", Json.str "y"])]))).subtractionTasks.length
      = 5 ∧
    ¬((generate_video_editing_plan "edit my video" (some "model output")
      (fun _ => Except.ok (Json.obj
        [("subtractionTasks", Json.arr
          [Json.str "a", Json.str "b", Json.str "c", Json.str "d", Json.str "e"]),
         ("additionTasks", Json.arr [Json.str "x", Json.str "y"])]))).subtractionTasks.length
      ≤ 4) := by
  have h : (generate_video_editing_plan "edit my video" (some "model output")
      (fun _ => Except.ok (Json.obj
        [("subtractionTasks", Json.arr
          [Json.str "a", Json.str "b", Json.str "c", Json.str "d", Json.str "e"]),
         ("additionTasks", Json.arr [Json.str "x", Json.str "y"])]))).subtractionTasks.length
      = 5 := rfl
  exact ⟨h, by omega⟩

/-- C5 (amended).  In every LLM-generated plan the task ids are the
sequential tags `sub_1..sub_n` / `add_1..add_n` assigned in input order,
hence unique within their own list; every task is created with
`completed = false`; and each list's length equals the parsed array's length
(or 3 when that array parsed empty), so the 2-to-4 bound holds exactly when
the model output honours it. -/
theorem claim_C5_amended (request : String) (content : Option String)
    (loads : String → Except Unit Json) :
    ((generate_video_editing_plan request content loads).subtractionTasks.map
        (fun task => task.id) =
      (List.range
        (generate_video_editing_plan request content loads).subtractionTasks.length).map
        (fun k => "sub_" ++ decRepr (k + 1))) ∧
    ((generate_video_editing_plan request content loads).additionTasks.map
        (fun task => task.id) =
      (List.range
        (generate_video_editing_plan request content loads).additionTasks.length).map
        (fun k => "add_" ++ decRepr (k + 1))) ∧
    ((generate_video_editing_plan request content loads).subtractionTasks.map
      (fun task => task.id)).Nodup ∧
    ((generate_video_editing_plan request content loads).additionTasks.map
      (fun task => task.id)).Nodup ∧
    ((generate_video_editing_plan request content loads).subtractionTasks.map
        (fun task => task.completed) =
      List.replicate
        (generate_video_editing_plan request content loads).subtractionTasks.length false) ∧
    ((generate_video_editing_plan request content loads).additionTasks.map
        (fun task => task.completed) =
      List.replicate
        (generate_video_editing_plan request content loads).additionTasks.length false) ∧
    ((generate_video_editing_plan request content loads).subtractionTasks.length =
      if (videoParsedStage content loads).2.1.isEmpty then 3
      else (videoParsedStage content loads).2.1.length) ∧
    ((generate_video_editing_plan request content loads).additionTasks.length =
      if (videoParsedStage content loads).2.2.isEmpty then 3
      else (videoParsedStage content loads).2.2.length) := by
  have hs : (generate_video_editing_plan request content loads).subtractionTasks =
      assignTaskIds "sub_" 0
        (if (videoParsedStage content loads).2.1.isEmpty then
          (if requestLooksChinese request then zh_subtraction_fallback
            else en_subtraction_fallback)
          else (videoParsedStage content loads).2.1) := rfl
  have ha : (generate_video_editing_plan request content loads).additionTasks =
      assignTaskIds "add_" 0
        (if (videoParsedStage content loads).2.2.isEmpty then
          (if requestLooksChinese request then zh_addition_fallback
            else en_addition_fallback)
          else (videoParsedStage content loads).2.2) := rfl
  refine ⟨?_, ?_, ?_, ?_, ?_, ?_, ?_, ?_⟩
  · rw [hs]
    exact assignTaskIds_ids_zero "sub_" _
  · rw [ha]
    exact assignTaskIds_ids_zero "add_" _
  · rw [hs]
    exact assignTaskIds_ids_nodup "sub_" 0 _
  · rw [ha]
    exact assignTaskIds_ids_nodup "add_" 0 _
  · rw [hs, assignTaskIds_completed, assignTaskIds_length]
  · rw [ha, assignTaskIds_completed, assignTaskIds_length]
  · rw [hs, assignTaskIds_length]
    by_cases he : (videoParsedStage content loads).2.1.isEmpty
    · rw [if_pos he, if_pos he]
      by_cases hc : requestLooksChinese request
      · rw [if_pos hc]
        rfl
      · rw [if_neg hc]
        rfl
    · rw [if_neg he, if_neg he]
  · rw [ha, assignTaskIds_length]
    by_cases he : (videoParsedStage content loads).2.2.isEmpty
    · rw [if_pos he, if_pos he]
      by_cases hc : requestLooksChinese request
      · rw [if_pos hc]
        rfl
      · rw [if_neg hc]
        rfl
    · rw [if_neg he, if_neg he]

/-! ## Claim C6: empty-list fallback localization -/

/-- C6.  When a task list is empty after parsing, the substituted fixed
3-item list is the Chinese variant exactly when the original request contains
a codepoint above 127 (and the English variant otherwise — the two variants
are distinct lists); this script check is the code's own
`any(ord(char) > 127)`, and the chosen UI payload is independent of the
`language` parameter passed to `process_request`. -/
theorem claim_C6_script_fallback (request : String) (content : Option String)
    (loads : String → Except Unit Json) (lang1 lang2 : String) :
    ((videoParsedStage content loads).2.1 = [] →
      (requestLooksChinese request = true →
        (generate_video_editing_plan request content loads).subtractionTasks =
          assignTaskIds "sub_" 0 zh_subtraction_fallback) ∧
      (requestLooksChinese request = false →
        (generate_video_editing_plan request content loads).subtractionTasks =
          assignTaskIds "sub_" 0 en_subtraction_fallback)) ∧
    ((videoParsedStage content loads).2.2 = [] →
      (requestLooksChinese request = true →
        (generate_video_editing_plan request content loads).additionTasks =
          assignTaskIds "add_" 0 zh_addition_fallback) ∧
      (requestLooksChinese request = false →
        (generate_video_editing_plan request content loads).additionTasks =
          assignTaskIds "add_" 0 en_addition_fallback)) ∧
    assignTaskIds "sub_" 0 zh_subtraction_fallback ≠
      assignTaskIds "sub_" 0 en_subtraction_fallback ∧
    assignTaskIds "add_" 0 zh_addition_fallback ≠
      assignTaskIds "add_" 0 en_addition_fallback ∧
    (requestLooksChinese request = true ↔ ∃ c ∈ request.data, 127 < c.toNat) ∧
    (video_process_request request lang1 (Except.ok content) loads).ui_components =
      (video_process_request request lang2 (Except.ok content) loads).ui_components := by
  have hs : (generate_video_editing_plan request content loads).subtractionTasks =
      assignTaskIds "sub_" 0
        (if (videoParsedStage content loads).2.1.isEmpty then
          (if requestLooksChinese request then zh_subtraction_fallback
            else en_subtraction_fallback)
          else (videoParsedStage content loads).2.1) := rfl
  have ha : (generate_video_editing_plan request content loads).additionTasks =
      assignTaskIds "add_" 0
        (if (videoParsedStage content loads).2.2.isEmpty then
          (if requestLooksChinese request then zh_addition_fallback
            else en_addition_fallback)
          else (videoParsedStage content loads).2.2) := rfl
  refine ⟨?_, ?_, ?_, ?_, ?_, rfl⟩
  · intro hempty
    have hE : (videoParsedStage content loads).2.1.isEmpty = true := by
      rw [hempty]
      rfl
    constructor
    · intro hc
      rw [hs, hE, hc]
      rfl
    · intro hc
      rw [hs, hE, hc]
      rfl
  · intro hempty
    have hE : (videoParsedStage content loads).2.2.isEmpty = true := by
      rw [hempty]
      rfl
    constructor
    · intro hc
      rw [ha, hE, hc]
      rfl
    · intro hc
      rw [ha, hE, hc]
      rfl
  · intro h
    have h3 := congrArg
      (fun l => (l.map (fun task => task.title)).headD Json.null) h
    have h2 : Json.str "移除不需要的片段" = Json.str "Remove unwanted footage" := h3
    injection h2 with h4
    exact absurd h4 (by decide)
  · intro h
    have h3 := congrArg
      (fun l => (l.map (fun task => task.title)).headD Json.null) h
    have h2 : Json.str "添加转场效果" = Json.str "Add transitions" := h3
    injection h2 with h4
    exact absurd h4 (by decide)
  · simp [requestLooksChinese, List.any_eq_true]

/-- Witness for C6: a Chinese request whose completion parses to no tasks
(the loads outcome is a parse failure and the heuristic finds nothing), so
the Chinese substitute lists are chosen. -/
theorem claim_C6_witness :
    (generate_video_editing_plan "剪辑我的视频" (some "nothing here")
        (fun _ => Except.error ())).subtractionTasks =
      assignTaskIds "sub_" 0 zh_subtraction_fallback ∧
    (generate_video_editing_plan "剪辑我的视频" (some "nothing here")
        (fun _ => Except.error ())).additionTasks =
      assignTaskIds "add_" 0 zh_addition_fallback := by
  have thm := claim_C6_script_fallback "剪辑我的视频" (some "nothing here")
    (fun _ => Except.error ()) "en" "zh"
  exact ⟨(thm.1 rfl).1 (by decide), (thm.2.1 rfl).1 (by decide)⟩

/-! ## Claim C7: missing weather credential -/

/-- C7.  When the weather credential is absent the fetch raises the
configuration error and `process_request` returns the fixed fallback output
with exactly one UI component, city `"San Francisco"` when the re-extraction
fails, text from the `weather_fallback` template — but the source file is
double-UTF-8-encoded, so the temperature literal the code actually produces
is `"72Â°F"` (U+00C2 U+00B0), not the claimed `"72°F"`, and the icon is the
three-character mojibake of `"⛅"` rather than `"⛅"` itself. -/
theorem claim_C7_missing_credential (request language : String) (env : WeatherEnv)
    (hkey : env.weatherApiKey = none) (hcity : env.cityLLM2 = none) :
    weather_process_request request language env =
      create_fallback_weather_response request language env ∧
    (weather_process_request request language env).ui_components =
      [⟨"weather",
        UIData.weather
          { city := "San Francisco", temperature := "72Â°F",
            condition := "Partly Cloudy", humidity := "65%", windSpeed := "8 mph",
            icon := "â›…",
            gradient := "linear-gradient(135deg, #74b9ff 0%, #0984e3 100%)",
            description := weather_fallback_description language }⟩] ∧
    (weather_process_request request language env).result =
      format_response_weather_fallback language "San Francisco" "72Â°F"
        "Partly Cloudy" (weather_fallback_description language) ∧
    ("72Â°F" : String) ≠ "72°F" ∧ ("â›…" : String) ≠ "⛅" := by
  have hfetch : fetch_weather_data env (extract_city_with_openai env.cityLLM) =
      Except.error () := by
    simp [fetch_weather_data, hkey]
  have hmain : weather_process_request request language env =
      create_fallback_weather_response request language env := by
    simp only [weather_process_request, hfetch, Except.bind]
  refine ⟨hmain, ?_, ?_, by decide, by decide⟩
  · rw [hmain]
    simp only [create_fallback_weather_response, extract_city_with_openai, hcity,
      create_ui_component, create_component_response]
  · rw [hmain]
    simp only [create_fallback_weather_response, extract_city_with_openai, hcity,
      create_ui_component, create_component_response]

/-- Witness for C7: concrete environment with no credential and a failing
re-extraction. -/
theorem claim_C7_witness :
    weather_process_request "weather in SF" "en"
        ⟨none, none, none, fun _ => Except.error ()⟩ =
      create_fallback_weather_response "weather in SF" "en"
        ⟨none, none, none, fun _ => Except.error ()⟩ ∧
    (weather_process_request "weather in SF" "en"
        ⟨none, none, none, fun _ => Except.error ()⟩).ui_components =
      [⟨"weather",
        UIData.weather
          { city := "San Francisco", temperature := "72Â°F",
            condition := "Partly Cloudy", humidity := "65%", windSpeed := "8 mph",
            icon := "â›…",
            gradient := "linear-gradient(135deg, #74b9ff 0%, #0984e3 100%)",
            description := weather_fallback_description "en" }⟩] ∧
    (weather_process_request "weather in SF" "en"
        ⟨none, none, none, fun _ => Except.error ()⟩).result =
      format_response_weather_fallback "en" "San Francisco" "72Â°F"
        "Partly Cloudy" (weather_fallback_description "en") ∧
    ("72Â°F" : String) ≠ "72°F" ∧ ("â›…" : String) ≠ "⛅" :=
  claim_C7_missing_credential "weather in SF" "en"
    ⟨none, none, none, fun _ => Except.error ()⟩ rfl rfl

/-- Witness for C10 (amended) at a response with an empty `current` dict:
every optional field is missing, so every default fires. -/
theorem claim_C10_amended_witness :
    ∃ out, format_weather_data (Json.obj [("current", Json.obj [])]) "Paris" =
        Except.ok out ∧
      out.city = "Paris" ∧
      (tempFLookup (Json.obj [("current", Json.obj [])]) = none →
        out.temperature = "70°F") ∧
      (condTextLookup (Json.obj [("current", Json.obj [])]) = none →
        out.condition = "Clear" ∧ out.icon = "☀️" ∧
        out.description = "Clear and sunny") ∧
      (humidityLookup (Json.obj [("current", Json.obj [])]) = none →
        out.humidity = "50%") ∧
      (windLookup (Json.obj [("current", Json.obj [])]) = none →
        out.windSpeed = "5 mph") :=
  claim_C10_amended (Json.obj [("current", Json.obj [])]) "Paris"
    ⟨[("current", Json.obj [])], rfl⟩
    ⟨⟨[], rfl⟩, ⟨[], rfl⟩, fun j h => by simp [condTextLookup, conditionOf, currentOf,
      jLookup] at h⟩

end Agent
